import Mathlib

/-!
Verification of the OTA update engine of the MusicalBox repository
(src/software/esp32/stepper/main/ota.c, together with its caller app_main).

The engine streams a firmware binary over HTTP, accumulates the leading
bytes until a fixed-size header is present, extracts the embedded version
string, decides skip / reject / proceed, and on proceed writes the image
into the inactive partition through a sequential flash-write session that
is finally committed by repointing the boot selector.

The shallow embedding below follows `update` in ota.c line by line.  The
network is modelled as a list of read events (the three shapes returned by
`esp_http_client_read`: positive data, zero, negative), the flash layer
(`esp_ota_begin` / `esp_ota_write` / `esp_ota_end` / `esp_ota_abort` /
`esp_ota_set_boot_partition`) as an oracle of success bits plus a recorded
trace of the calls the engine makes, and the two partition descriptors
(running version, last-invalid version) as environment inputs.  Per the
ESP-IDF contract, `esp_ota_end` on a handle that does not denote an open
session (handle 0) fails with an error; this is reflected in `finishOta`.
-/

/-- sizeof(esp_image_header_t) in ESP-IDF: 24 bytes (the comment in ota.c
says 8, but the packed struct in esp_app_format.h is 24 bytes; none of the
verified claims depends on which figure is used). -/
def sizeofEspImageHeader : Nat := 24

/-- sizeof(esp_image_segment_header_t) in ESP-IDF: 8 bytes. -/
def sizeofEspImageSegmentHeader : Nat := 8

/-- sizeof(esp_app_desc_t) in ESP-IDF: 256 bytes. -/
def sizeofEspAppDesc : Nat := 256

/-- Offset of the fixed-width `version` field inside esp_app_desc_t:
magic_word (4) + secure_version (4) + reserv1 (8). -/
def appDescVersionOffset : Nat := 16

/-- sizeof(esp_app_desc_t.version): the full fixed-width version field,
32 bytes.  `parse_firmware_header` compares versions with
memcmp(..., sizeof(new_app_info.version)). -/
def versionFieldSize : Nat := 32

/-- OTA_BUFFER_SIZE in ota.c: every `esp_http_client_read` call reads into
a buffer of this size, so a single read returns at most this many bytes. -/
def otaBufferSize : Nat := 1024

/-- OTA_FILE_HEADER_BUFFER_SIZE in ota.c: capacity of the static header
accumulation buffer. -/
def otaFileHeaderBufferSize : Nat := 8192

/-- `has_complete_header_min_size` in ota.c: image header + first segment
header + app descriptor + 1024-byte safety margin. -/
def hasCompleteHeaderMinSize : Nat :=
  sizeofEspImageHeader + sizeofEspImageSegmentHeader + sizeofEspAppDesc + 1024

/-- `has_complete_header` in ota.c: the accumulated byte count reaches the
parse threshold. -/
def hasCompleteHeader (accumulated : Nat) : Bool :=
  decide (hasCompleteHeaderMinSize ≤ accumulated)

/-- `max_zero_reads` in `update` in ota.c: ceiling on consecutive
zero-length reads. -/
def maxZeroReads : Nat := 10

/-- One result of `esp_http_client_read`, as classified by the loop in
`update`: a positive-length data chunk, a zero-length read (together with
the transport state the code then queries: `esp_http_client_is_complete_data_received`
and whether errno reads as ECONNRESET/ENOTCONN), or a negative return. -/
inductive Ev : Type where
  | chunk (bytes : List Nat) : Ev
  | zeroRead (complete : Bool) (connReset : Bool) : Ev
  | readError : Ev
deriving DecidableEq

/-- One call the engine makes into the flash / boot-selector collaborator,
with the success of the call where relevant.  `hadSession` records whether
a live write session existed at the moment of the call (the code can pass
a stale nonzero handle to `esp_ota_abort`, and can pass handle 0 to
`esp_ota_end`). -/
inductive Op : Type where
  | otaBegin (ok : Bool) : Op
  | otaWrite (len : Nat) (ok : Bool) : Op
  | otaEnd (hadSession : Bool) (ok : Bool) : Op
  | otaAbort (hadSession : Bool) : Op
  | setBoot (ok : Bool) : Op
  | restart : Op
deriving DecidableEq

/-- The reason recorded when `err` becomes nonzero, one per assignment
site in ota.c.  In the C code several sites assign the same esp_err_t
value (for example the SSL-read error, the version-gate reject and the
zero-read ceiling all assign ESP_ERR_INVALID_RESPONSE); the constructors
here distinguish the sites, which the code itself distinguishes only by
the diagnostic it logs.  `ok` is ESP_OK. -/
inductive ErrCause : Type where
  | ok : ErrCause
  | sslReadError : ErrCause
  | bufferOverflow : ErrCause
  | rejectedKnownBad : ErrCause
  | beginFailed : ErrCause
  | flushWriteFailed : ErrCause
  | writeFailed : ErrCause
  | eofBeforeHeader : ErrCause
  | zeroReadsHeaderLimit : ErrCause
  | connectionClosed : ErrCause
  | zeroReadsDataLimit : ErrCause
  | endFailed : ErrCause
  | setBootFailed : ErrCause
deriving DecidableEq

/-- The four terminal outcomes of one invocation, as named by the spec. -/
inductive Outcome : Type where
  | noUpdateNeeded : Outcome
  | rejectedKnownBad : Outcome
  | updatedAndRebooting : Outcome
  | failed : Outcome
deriving DecidableEq

/-- Success oracle for the flash collaborator: results of `esp_ota_begin`,
of each successive `esp_ota_write` (indexed by the number of prior write
calls), of `esp_ota_end` on an open session, and of
`esp_ota_set_boot_partition`. -/
structure Flash : Type where
  beginOk : Bool
  writeOk : Nat → Bool
  endOk : Bool
  setBootOk : Bool

/-- Environment of one invocation: the running partition's version field,
the last-invalid partition's version field when such a partition exists,
and the flash oracle. -/
structure Env : Type where
  runningVersion : List Nat
  lastInvalidVersion : Option (List Nat)
  flash : Flash

/-- The local state of `update` in ota.c.  `updateHandle` models
`update_handle != 0` (the raw variable, which is not cleared when the
header-flush failure path aborts the session inside
`parse_firmware_header`); `sessionLive` tracks whether a write session is
actually open; `ops` is the trace of collaborator calls made so far. -/
structure St : Type where
  err : ErrCause
  imageHeaderWasChecked : Bool
  headerBuf : List Nat
  zeroReadCount : Nat
  transferComplete : Bool
  sameVersionDetected : Bool
  binaryFileLength : Nat
  updateHandle : Bool
  sessionLive : Bool
  writeCalls : Nat
  restarted : Bool
  ops : List Op

/-- Initial state at the top of the receive loop in `update`. -/
def initSt : St :=
  { err := ErrCause.ok
    imageHeaderWasChecked := false
    headerBuf := []
    zeroReadCount := 0
    transferComplete := false
    sameVersionDetected := false
    binaryFileLength := 0
    updateHandle := false
    sessionLive := false
    writeCalls := 0
    restarted := false
    ops := [] }

/-- The `while` condition of the receive loop:
err == ESP_OK && !transfer_complete && !same_version_detected. -/
def looping (st : St) : Bool :=
  decide (st.err = ErrCause.ok) && !st.transferComplete && !st.sameVersionDetected

/-- Extraction of the candidate version: `parse_firmware_header` memcpys
esp_app_desc_t from offset sizeof(esp_image_header_t) +
sizeof(esp_image_segment_header_t) of the accumulated buffer and reads its
`version` field, i.e. the 32 bytes at offset 48 of the buffer. -/
def extractVersion (buffer : List Nat) : List Nat :=
  (buffer.drop (sizeofEspImageHeader + sizeofEspImageSegmentHeader + appDescVersionOffset)).take
    versionFieldSize

/-- The verdict of the version gate in `parse_firmware_header`, evaluated
in source order: the last-invalid comparison first (when a last-invalid
partition exists), then the running comparison.  Comparisons are memcmp
over the full fixed-width version field. -/
inductive Verdict : Type where
  | reject : Verdict
  | skip : Verdict
  | proceed : Verdict
deriving DecidableEq

/-- `parse_firmware_header` lines 140-162: reject if the candidate version
equals the last-invalid version (checked first, only when a last-invalid
partition exists), skip if it equals the running version, else proceed. -/
def versionGate (cand running : List Nat) (lastInvalid : Option (List Nat)) : Verdict :=
  let rejected : Bool :=
    match lastInvalid with
    | some inv => decide (inv = cand)
    | none => false
  if rejected then Verdict.reject
  else if cand = running then Verdict.skip
  else Verdict.proceed

/-- `parse_firmware_header` lines 164-183 plus the caller's handling of
its result (lines 275-290 of `update`): on proceed, `esp_ota_begin`, then
flush the whole accumulated buffer with one `esp_ota_write`; on success
the caller sets image_header_was_checked and binary_file_length :=
header_accumulated.  On the flush failure the session is aborted inside
the parser and `update_handle` is left stale (not cleared).  Reject and
begin-failure reach the caller as -1 (the caller assigns
ESP_ERR_INVALID_RESPONSE; the cause constructor records which branch). -/
def parseFirmwareHeader (env : Env) (st : St) : St :=
  match versionGate (extractVersion st.headerBuf) env.runningVersion env.lastInvalidVersion with
  | Verdict.reject => { st with err := ErrCause.rejectedKnownBad }
  | Verdict.skip => { st with sameVersionDetected := true }
  | Verdict.proceed =>
    if env.flash.beginOk then
      let st1 : St :=
        { st with
          updateHandle := true
          sessionLive := true
          ops := st.ops ++ [Op.otaBegin true] }
      if 0 < st1.headerBuf.length then
        let wOk := env.flash.writeOk st1.writeCalls
        let st2 : St :=
          { st1 with
            writeCalls := st1.writeCalls + 1
            ops := st1.ops ++ [Op.otaWrite st1.headerBuf.length wOk] }
        if wOk then
          { st2 with
            imageHeaderWasChecked := true
            binaryFileLength := st2.headerBuf.length }
        else
          { st2 with
            sessionLive := false
            err := ErrCause.flushWriteFailed
            ops := st2.ops ++ [Op.otaAbort true] }
      else
        { st1 with imageHeaderWasChecked := true, binaryFileLength := 0 }
    else
      { st with err := ErrCause.beginFailed, ops := st.ops ++ [Op.otaBegin false] }

/-- The body of the receive loop of `update` (lines 252-350 of ota.c) for
a positive read: reset the zero-read counter; before the header is
resolved, append to the header buffer when it fits (else the fatal
buffer-overflow classification), then - exactly as in the source, which
performs this check regardless - parse the header once the threshold is
reached; after the header is resolved, one `esp_ota_write` of the chunk,
with binary_file_length += data_read executed unconditionally (in the
source the increment sits after the error check, outside its body). -/
def chunkStep (env : Env) (st : St) (bytes : List Nat) : St :=
  let st0 : St := { st with zeroReadCount := 0 }
  if st0.imageHeaderWasChecked then
    let wOk := env.flash.writeOk st0.writeCalls
    let st1 : St :=
      { st0 with
        writeCalls := st0.writeCalls + 1
        ops := st0.ops ++ [Op.otaWrite bytes.length wOk] }
    let st2 : St := { st1 with binaryFileLength := st1.binaryFileLength + bytes.length }
    if wOk then st2 else { st2 with err := ErrCause.writeFailed }
  else
    let st1 : St :=
      if st0.headerBuf.length + bytes.length ≤ otaFileHeaderBufferSize then
        { st0 with headerBuf := st0.headerBuf ++ bytes }
      else
        { st0 with err := ErrCause.bufferOverflow }
    if hasCompleteHeader st1.headerBuf.length then parseFirmwareHeader env st1 else st1

/-- The body of the receive loop for a zero-length read (lines 304-348):
increment the consecutive-zero-read counter; before header resolution a
transport-complete signal is EOF-before-header and the ceiling check uses
the counter; after header resolution a connection-reset signal is checked
first and is fatal, then transport-complete means the transfer is done,
then the ceiling check. -/
def zeroReadStep (st : St) (complete connReset : Bool) : St :=
  let st0 : St := { st with zeroReadCount := st.zeroReadCount + 1 }
  if st0.imageHeaderWasChecked then
    if connReset then { st0 with err := ErrCause.connectionClosed }
    else if complete then { st0 with transferComplete := true }
    else if maxZeroReads ≤ st0.zeroReadCount then { st0 with err := ErrCause.zeroReadsDataLimit }
    else st0
  else
    if complete then { st0 with err := ErrCause.eofBeforeHeader }
    else if maxZeroReads ≤ st0.zeroReadCount then { st0 with err := ErrCause.zeroReadsHeaderLimit }
    else st0

/-- One iteration of the receive loop: the loop condition guards the body
(a state that has left the loop consumes no further reads). -/
def httpLoopStep (env : Env) (st : St) (e : Ev) : St :=
  if looping st then
    match e with
    | Ev.chunk bytes => chunkStep env st bytes
    | Ev.zeroRead complete connReset => zeroReadStep st complete connReset
    | Ev.readError => { st with err := ErrCause.sslReadError }
  else st

/-- The receive loop driven by a list of read events. -/
def loopRun (env : Env) (evs : List Ev) : St :=
  List.foldl (httpLoopStep env) initSt evs

/-- Lines 353-384 of `update`: after the loop, when err == ESP_OK and the
client reports complete data received, `esp_ota_end` is called on the raw
handle (it fails when no session is open - ESP-IDF returns an error for an
unknown handle) and the handle is cleared; on success the boot selector is
repointed and, on success of that, the device restarts (nothing after the
restart runs).  Otherwise the clean-up runs: `esp_ota_abort` whenever the
raw handle is nonzero, even if it is stale. -/
def finishOta (env : Env) (st : St) (finalComplete : Bool) : St :=
  let st1 : St :=
    if st.err = ErrCause.ok then
      if finalComplete then
        let endRes := st.sessionLive && env.flash.endOk
        let s : St :=
          { st with
            updateHandle := false
            sessionLive := false
            ops := st.ops ++ [Op.otaEnd st.sessionLive endRes] }
        if endRes then
          let sbOk := env.flash.setBootOk
          let s2 : St := { s with ops := s.ops ++ [Op.setBoot sbOk] }
          if sbOk then { s2 with restarted := true, ops := s2.ops ++ [Op.restart] }
          else { s2 with err := ErrCause.setBootFailed }
        else { s with err := ErrCause.endFailed }
      else st
    else st
  if st1.restarted then st1
  else if st1.updateHandle then
    { st1 with ops := st1.ops ++ [Op.otaAbort st1.sessionLive], sessionLive := false }
  else st1

/-- One whole invocation of the engine on a trace of read events;
`finalComplete` is the transport's answer to the
`esp_http_client_is_complete_data_received` query made after the loop. -/
def updateRun (env : Env) (evs : List Ev) (finalComplete : Bool) : St :=
  finishOta env (loopRun env evs) finalComplete

/-- The terminal outcome of an invocation, determined by the terminal
branch taken: a restart is updated-and-rebooting; the reject branch of the
version gate is rejected-known-bad (in the C code this branch is
distinguished from other failures by its diagnostics, not by the returned
error value); any other nonzero err is failed; a plain return with
err == ESP_OK is no-update-needed. -/
def outcomeOf (st : St) : Outcome :=
  if st.restarted then Outcome.updatedAndRebooting
  else if st.err = ErrCause.rejectedKnownBad then Outcome.rejectedKnownBad
  else if st.err = ErrCause.ok then Outcome.noUpdateNeeded
  else Outcome.failed

/-- What app_main does after `ota_update` returns (the caller in the
unnamed main file): a successful update never returns (the device
restarted); a zero return continues into the application; any nonzero
return reaches the terminal else-branch, which logs, de-initialises and
unconditionally calls esp_restart. -/
inductive TerminalAction : Type where
  | application : TerminalAction
  | restartAfterOta : TerminalAction
  | restartAfterFailure : TerminalAction
deriving DecidableEq

/-- The terminal behaviour of app_main as a function of the engine's final
state: ota_update returns -err, so any fatal classification makes app_main
take its restart branch. -/
def appMainTerminal (st : St) : TerminalAction :=
  if st.restarted then TerminalAction.restartAfterOta
  else if st.err = ErrCause.ok then TerminalAction.application
  else TerminalAction.restartAfterFailure

/-- Whether an op is a `esp_ota_begin` call. -/
def isBeginOp : Op → Bool
  | Op.otaBegin _ => true
  | _ => false

/-- Whether an op is a `esp_ota_end` call. -/
def isEndOp : Op → Bool
  | Op.otaEnd _ _ => true
  | _ => false

/-- Whether an op is a `esp_ota_abort` call. -/
def isAbortOp : Op → Bool
  | Op.otaAbort _ => true
  | _ => false

/-- Whether an op is an `esp_ota_abort` call made while a session was
actually open. -/
def isAbortTrueOp : Op → Bool
  | Op.otaAbort h => h
  | _ => false

/-- Whether an op is a successful `esp_ota_set_boot_partition` call. -/
def isSetBootTrueOp : Op → Bool
  | Op.setBoot k => k
  | _ => false

/-- The master invariant of the receive loop: while the header is
unresolved the engine has called nothing into the flash layer; once the
header is resolved a session is live; during the loop abort has been
called at most once, and only on the path where flushing the accumulated
header failed; no end / set-boot / restart happens inside the loop. -/
def LoopInv (st : St) : Prop :=
  (looping st = true → st.imageHeaderWasChecked = false →
      st.ops = [] ∧ st.updateHandle = false ∧ st.sessionLive = false ∧
      st.binaryFileLength = 0 ∧ st.headerBuf.length < hasCompleteHeaderMinSize) ∧
  (st.imageHeaderWasChecked = true → st.updateHandle = true ∧ st.sessionLive = true) ∧
  (Op.otaBegin true ∈ st.ops → st.updateHandle = true ∧
      (st.sessionLive = true ∨ Op.otaAbort true ∈ st.ops)) ∧
  (st.updateHandle = true → Op.otaBegin true ∈ st.ops) ∧
  (∀ h k, Op.otaEnd h k ∉ st.ops) ∧
  (∀ b, Op.setBoot b ∉ st.ops) ∧
  Op.restart ∉ st.ops ∧
  st.restarted = false ∧
  st.ops.countP isBeginOp ≤ 1 ∧
  st.ops.countP isAbortOp ≤ 1 ∧
  Op.otaAbort false ∉ st.ops ∧
  (Op.otaAbort true ∈ st.ops →
      st.err = ErrCause.flushWriteFailed ∧ st.sessionLive = false ∧ st.updateHandle = true) ∧
  (st.updateHandle = true → st.sessionLive = false →
      st.err = ErrCause.flushWriteFailed ∧ Op.otaAbort true ∈ st.ops) ∧
  (st.sessionLive = true → st.updateHandle = true)

/-- Input predicate for the zero-read-tolerance claim: starting from a
current consecutive-zero-read count `k`, every zero-length read in the
trace keeps the count strictly below the ceiling, and any positive or
negative read resets it. -/
def zeroRunsOk : Nat → List Ev → Bool
  | _, [] => true
  | k, Ev.zeroRead _ _ :: rest =>
    decide (k + 1 < maxZeroReads) && zeroRunsOk (k + 1) rest
  | _, Ev.chunk _ :: rest => zeroRunsOk 0 rest
  | _, Ev.readError :: rest => zeroRunsOk 0 rest

/-- Chunks bounded by the engine's own read-buffer size. -/
def evBounded : Ev → Bool
  | Ev.chunk b => decide (b.length ≤ otaBufferSize)
  | _ => true

/-- A 1312-byte chunk all of whose bytes are 7; the version field it
embeds (bytes 48..79) is then the 32-byte list of sevens, and its length
is exactly the header-complete threshold. -/
def chunk7 : List Nat := List.replicate 1312 7

/-- A 1312-byte chunk whose embedded version field (bytes 48..79) holds
ones and whose remaining bytes are zero. -/
def chunkC1 : List Nat :=
  List.replicate 48 0 ++ (List.replicate 32 1 ++ List.replicate 1232 0)

/-- Flash collaborator that accepts every call. -/
def flashOk : Flash :=
  { beginOk := true, writeOk := fun _ => true, endOk := true, setBootOk := true }

/-- Environment of a plain successful run: running version all zeros, no
last-invalid partition, flash fully functional. -/
def envP : Env :=
  { runningVersion := List.replicate 32 0, lastInvalidVersion := none, flash := flashOk }

/-- Environment whose running version equals the version embedded in
`chunk7`: the same-version (skip) path. -/
def envS : Env :=
  { runningVersion := List.replicate 32 7, lastInvalidVersion := none, flash := flashOk }

/-- Environment whose recorded last-invalid version equals the version
embedded in `chunk7`: the known-bad (reject) path. -/
def envR : Env :=
  { runningVersion := List.replicate 32 0
    lastInvalidVersion := some (List.replicate 32 7)
    flash := flashOk }

/-- Environment where every flash write fails. -/
def envF : Env :=
  { runningVersion := List.replicate 32 0
    lastInvalidVersion := none
    flash := { flashOk with writeOk := fun _ => false } }

/-- Environment where finalizing the write session fails. -/
def envE : Env :=
  { runningVersion := List.replicate 32 0
    lastInvalidVersion := none
    flash := { flashOk with endOk := false } }


theorem looping_err {st : St} (h : looping st = true) : st.err = ErrCause.ok := by
  simp [looping] at h
  exact h.1.1

theorem looping_not_tc {st : St} (h : looping st = true) : st.transferComplete = false := by
  simp [looping] at h
  exact h.1.2

theorem looping_not_sv {st : St} (h : looping st = true) : st.sameVersionDetected = false := by
  simp [looping] at h
  exact h.2

theorem step_dead {env : Env} {st : St} (e : Ev) (h : looping st = false) :
    httpLoopStep env st e = st := by
  simp [httpLoopStep, h]

theorem foldl_dead {env : Env} {st : St} (evs : List Ev) (h : looping st = false) :
    List.foldl (httpLoopStep env) st evs = st := by
  induction evs with
  | nil => rfl
  | cons e evs ih => simpa [List.foldl, step_dead e h] using ih

theorem loopInv_init : LoopInv initSt := by
  simp [LoopInv, initSt, looping, hasCompleteHeaderMinSize, sizeofEspImageHeader,
    sizeofEspImageSegmentHeader, sizeofEspAppDesc]

theorem loopInv_simple (t : St) (hops : t.ops = []) (hh : t.updateHandle = false)
    (hs : t.sessionLive = false) (hr : t.restarted = false)
    (hch : t.imageHeaderWasChecked = false)
    (h1 : looping t = true →
        t.binaryFileLength = 0 ∧ t.headerBuf.length < hasCompleteHeaderMinSize) :
    LoopInv t := by
  refine ⟨fun hlp _ => ⟨hops, hh, hs, (h1 hlp).1, (h1 hlp).2⟩,
          fun hc => absurd hc (by simp [hch]),
          fun hb => absurd hb (by simp [hops]),
          fun hu => absurd hu (by simp [hh]),
          fun a k hmem => by simp [hops] at hmem,
          fun b hmem => by simp [hops] at hmem,
          by simp [hops],
          hr,
          by simp [hops],
          by simp [hops],
          by simp [hops],
          fun hmem => by simp [hops] at hmem,
          fun hu => absurd hu (by simp [hh]),
          fun hs2 => absurd hs2 (by simp [hs])⟩

theorem loopInv_proceed_ok (t : St) (n : Nat)
    (hops : t.ops = [Op.otaBegin true, Op.otaWrite n true])
    (hch : t.imageHeaderWasChecked = true) (hh : t.updateHandle = true)
    (hs : t.sessionLive = true) (hr : t.restarted = false) : LoopInv t := by
  refine ⟨fun _ hc => absurd hch (by simp [hc]),
          fun _ => ⟨hh, hs⟩,
          fun _ => ⟨hh, Or.inl hs⟩,
          fun _ => by simp [hops],
          fun a k hmem => by simp [hops] at hmem,
          fun b hmem => by simp [hops] at hmem,
          by simp [hops],
          hr,
          by simp [hops, List.countP_cons, isBeginOp],
          by simp [hops, List.countP_cons, isAbortOp],
          by simp [hops],
          fun hmem => by simp [hops] at hmem,
          fun _ hs2 => absurd hs2 (by simp [hs]),
          fun _ => hh⟩

theorem loopInv_flush_fail (t : St) (n : Nat)
    (hops : t.ops = [Op.otaBegin true, Op.otaWrite n false, Op.otaAbort true])
    (hch : t.imageHeaderWasChecked = false) (hh : t.updateHandle = true)
    (hs : t.sessionLive = false) (herr : t.err = ErrCause.flushWriteFailed)
    (hr : t.restarted = false) : LoopInv t := by
  refine ⟨fun hlp _ => absurd (looping_err hlp) (by simp [herr]),
          fun hc => absurd hc (by simp [hch]),
          fun _ => ⟨hh, Or.inr (by simp [hops])⟩,
          fun _ => by simp [hops],
          fun a k hmem => by simp [hops] at hmem,
          fun b hmem => by simp [hops] at hmem,
          by simp [hops],
          hr,
          by simp [hops, List.countP_cons, isBeginOp],
          by simp [hops, List.countP_cons, isAbortOp],
          by simp [hops],
          fun _ => ⟨herr, hs, hh⟩,
          fun _ _ => ⟨herr, by simp [hops]⟩,
          fun hs2 => absurd hs2 (by simp [hs])⟩

theorem loopInv_begin_fail (t : St)
    (hops : t.ops = [Op.otaBegin false])
    (hch : t.imageHeaderWasChecked = false) (hh : t.updateHandle = false)
    (hs : t.sessionLive = false) (herr : t.err = ErrCause.beginFailed)
    (hr : t.restarted = false) : LoopInv t := by
  refine ⟨fun hlp _ => absurd (looping_err hlp) (by simp [herr]),
          fun hc => absurd hc (by simp [hch]),
          fun hb => by simp [hops] at hb,
          fun hu => absurd hu (by simp [hh]),
          fun a k hmem => by simp [hops] at hmem,
          fun b hmem => by simp [hops] at hmem,
          by simp [hops],
          hr,
          by simp [hops, List.countP_cons, isBeginOp],
          by simp [hops, List.countP_cons, isAbortOp],
          by simp [hops],
          fun hmem => by simp [hops] at hmem,
          fun hu => absurd hu (by simp [hh]),
          fun hs2 => absurd hs2 (by simp [hs])⟩

theorem loopInv_checked_write (st : St) (h : LoopInv st) (hl : looping st = true)
    (hch : st.imageHeaderWasChecked = true) (t : St) (n : Nat) (k : Bool)
    (hops : t.ops = st.ops ++ [Op.otaWrite n k])
    (htch : t.imageHeaderWasChecked = true)
    (hth : t.updateHandle = st.updateHandle) (hts : t.sessionLive = st.sessionLive)
    (htr : t.restarted = st.restarted) : LoopInv t := by
  obtain ⟨h1, h2, h3, h4, h5, h6, h7, h8, h9, h10, h11, h12, h13, h14⟩ := h
  obtain ⟨hh, hs⟩ := h2 hch
  have herr := looping_err hl
  refine ⟨fun _ hc => absurd htch (by simp [hc]),
          fun _ => ⟨by rw [hth]; exact hh, by rw [hts]; exact hs⟩,
          fun _ => ⟨by rw [hth]; exact hh, Or.inl (by rw [hts]; exact hs)⟩,
          fun _ => by simp [hops]; exact h4 hh,
          fun a b hmem => by
            simp [hops] at hmem
            exact h5 a b hmem,
          fun b hmem => by
            simp [hops] at hmem
            exact h6 b hmem,
          by simp [hops]; exact h7,
          by rw [htr]; exact h8,
          by simpa [hops, List.countP_append, List.countP_cons, isBeginOp] using h9,
          by simpa [hops, List.countP_append, List.countP_cons, isAbortOp] using h10,
          by simp [hops]; exact h11,
          fun hmem => by
            simp [hops] at hmem
            exact absurd (h12 hmem).1 (by simp [herr]),
          fun _ hs2 => absurd hs2 (by rw [hts]; simp [hs]),
          fun _ => by rw [hth]; exact hh⟩

theorem loopInv_same_session (st : St) (h : LoopInv st) (hl : looping st = true) (t : St)
    (hops : t.ops = st.ops) (hch : t.imageHeaderWasChecked = st.imageHeaderWasChecked)
    (hh : t.updateHandle = st.updateHandle) (hs : t.sessionLive = st.sessionLive)
    (hbin : t.binaryFileLength = st.binaryFileLength)
    (hbuf : t.headerBuf = st.headerBuf)
    (htr : t.restarted = st.restarted) : LoopInv t := by
  obtain ⟨h1, h2, h3, h4, h5, h6, h7, h8, h9, h10, h11, h12, h13, h14⟩ := h
  have herr := looping_err hl
  refine ⟨?_, ?_, ?_, ?_, ?_, ?_, ?_, ?_, ?_, ?_, ?_, ?_, ?_, ?_⟩
  · intro _ hc
    obtain ⟨o, u, s, b, len⟩ := h1 hl (by rw [← hch]; exact hc)
    exact ⟨by rw [hops]; exact o, by rw [hh]; exact u, by rw [hs]; exact s,
      by rw [hbin]; exact b, by rw [hbuf]; exact len⟩
  · intro hc
    obtain ⟨u, s⟩ := h2 (by rw [← hch]; exact hc)
    exact ⟨by rw [hh]; exact u, by rw [hs]; exact s⟩
  · intro hb
    rw [hops] at hb
    obtain ⟨u, rest⟩ := h3 hb
    refine ⟨by rw [hh]; exact u, ?_⟩
    rcases rest with hsl | hab
    · exact Or.inl (by rw [hs]; exact hsl)
    · exact Or.inr (by rw [hops]; exact hab)
  · intro hu
    rw [hh] at hu
    rw [hops]
    exact h4 hu
  · intro a b hmem
    rw [hops] at hmem
    exact h5 a b hmem
  · intro b hmem
    rw [hops] at hmem
    exact h6 b hmem
  · rw [hops]; exact h7
  · rw [htr]; exact h8
  · rw [hops]; exact h9
  · rw [hops]; exact h10
  · rw [hops]; exact h11
  · intro hmem
    rw [hops] at hmem
    exact absurd (h12 hmem).1 (by simp [herr])
  · intro hu hs2
    rw [hh] at hu
    rw [hs] at hs2
    exact absurd (h13 hu hs2).1 (by simp [herr])
  · intro hs2
    rw [hs] at hs2
    rw [hh]
    exact h14 hs2

theorem hasCompleteHeader_false {n : Nat} (h : n < hasCompleteHeaderMinSize) :
    hasCompleteHeader n = false := by
  simp [hasCompleteHeader]
  omega

theorem hasCompleteHeader_le {n : Nat} (h : hasCompleteHeader n = true) :
    hasCompleteHeaderMinSize ≤ n := by
  simpa [hasCompleteHeader] using h

theorem parseFirmwareHeader_reject (env : Env) (st : St)
    (hg : versionGate (extractVersion st.headerBuf) env.runningVersion env.lastInvalidVersion =
      Verdict.reject) :
    parseFirmwareHeader env st = { st with err := ErrCause.rejectedKnownBad } := by
  unfold parseFirmwareHeader
  rw [hg]

theorem parseFirmwareHeader_skip (env : Env) (st : St)
    (hg : versionGate (extractVersion st.headerBuf) env.runningVersion env.lastInvalidVersion =
      Verdict.skip) :
    parseFirmwareHeader env st = { st with sameVersionDetected := true } := by
  unfold parseFirmwareHeader
  rw [hg]

theorem parseFirmwareHeader_begin_fail (env : Env) (st : St)
    (hg : versionGate (extractVersion st.headerBuf) env.runningVersion env.lastInvalidVersion =
      Verdict.proceed)
    (hb : env.flash.beginOk = false) :
    parseFirmwareHeader env st =
      { st with err := ErrCause.beginFailed, ops := st.ops ++ [Op.otaBegin false] } := by
  unfold parseFirmwareHeader
  rw [hg]
  simp [hb]

theorem parseFirmwareHeader_proceed_ok (env : Env) (st : St)
    (hg : versionGate (extractVersion st.headerBuf) env.runningVersion env.lastInvalidVersion =
      Verdict.proceed)
    (hb : env.flash.beginOk = true) (hpos : 0 < st.headerBuf.length)
    (hw : env.flash.writeOk st.writeCalls = true) :
    parseFirmwareHeader env st =
      { st with
        updateHandle := true
        sessionLive := true
        writeCalls := st.writeCalls + 1
        ops := st.ops ++ [Op.otaBegin true, Op.otaWrite st.headerBuf.length true]
        imageHeaderWasChecked := true
        binaryFileLength := st.headerBuf.length } := by
  unfold parseFirmwareHeader
  rw [hg]
  simp [hb, hw, hpos]

theorem parseFirmwareHeader_flush_fail (env : Env) (st : St)
    (hg : versionGate (extractVersion st.headerBuf) env.runningVersion env.lastInvalidVersion =
      Verdict.proceed)
    (hb : env.flash.beginOk = true) (hpos : 0 < st.headerBuf.length)
    (hw : env.flash.writeOk st.writeCalls = false) :
    parseFirmwareHeader env st =
      { st with
        updateHandle := true
        sessionLive := false
        writeCalls := st.writeCalls + 1
        ops := st.ops ++ [Op.otaBegin true, Op.otaWrite st.headerBuf.length false,
          Op.otaAbort true]
        err := ErrCause.flushWriteFailed } := by
  unfold parseFirmwareHeader
  rw [hg]
  simp [hb, hw, hpos]

theorem zeroReadStep_fields (st : St) (c r : Bool) :
    (zeroReadStep st c r).ops = st.ops ∧
    (zeroReadStep st c r).imageHeaderWasChecked = st.imageHeaderWasChecked ∧
    (zeroReadStep st c r).updateHandle = st.updateHandle ∧
    (zeroReadStep st c r).sessionLive = st.sessionLive ∧
    (zeroReadStep st c r).binaryFileLength = st.binaryFileLength ∧
    (zeroReadStep st c r).headerBuf = st.headerBuf ∧
    (zeroReadStep st c r).restarted = st.restarted := by
  unfold zeroReadStep
  dsimp only
  split_ifs <;> exact ⟨rfl, rfl, rfl, rfl, rfl, rfl, rfl⟩

theorem chunkStep_checked (env : Env) (st : St) (bytes : List Nat) (k : Bool)
    (hch : st.imageHeaderWasChecked = true)
    (hw : env.flash.writeOk st.writeCalls = k) :
    chunkStep env st bytes =
      { st with
        zeroReadCount := 0
        writeCalls := st.writeCalls + 1
        ops := st.ops ++ [Op.otaWrite bytes.length k]
        binaryFileLength := st.binaryFileLength + bytes.length
        err := if k then st.err else ErrCause.writeFailed } := by
  unfold chunkStep
  cases k with
  | true => simp [hch, hw]
  | false => simp [hch, hw]

theorem chunkStep_accumulate (env : Env) (st : St) (bytes : List Nat)
    (hch : st.imageHeaderWasChecked = false)
    (hfit : st.headerBuf.length + bytes.length ≤ otaFileHeaderBufferSize)
    (hnful : hasCompleteHeader (st.headerBuf.length + bytes.length) = false) :
    chunkStep env st bytes =
      { st with zeroReadCount := 0, headerBuf := st.headerBuf ++ bytes } := by
  unfold chunkStep
  simp [hch, hfit, hnful]

theorem chunkStep_overflow (env : Env) (st : St) (bytes : List Nat)
    (hch : st.imageHeaderWasChecked = false)
    (hfit : ¬ (st.headerBuf.length + bytes.length ≤ otaFileHeaderBufferSize))
    (hnful : hasCompleteHeader st.headerBuf.length = false) :
    chunkStep env st bytes =
      { st with zeroReadCount := 0, err := ErrCause.bufferOverflow } := by
  unfold chunkStep
  simp [hch, hfit, hnful]

theorem chunkStep_parse (env : Env) (st : St) (bytes : List Nat)
    (hch : st.imageHeaderWasChecked = false)
    (hfit : st.headerBuf.length + bytes.length ≤ otaFileHeaderBufferSize)
    (hful : hasCompleteHeader (st.headerBuf.length + bytes.length) = true) :
    chunkStep env st bytes =
      parseFirmwareHeader env
        { st with zeroReadCount := 0, headerBuf := st.headerBuf ++ bytes } := by
  unfold chunkStep
  simp [hch, hfit, hful]

theorem loopInv_restarted {st : St} (h : LoopInv st) : st.restarted = false :=
  h.2.2.2.2.2.2.2.1

theorem chunkStep_reject (env : Env) (st : St) (bytes : List Nat)
    (hch : st.imageHeaderWasChecked = false)
    (hfit : st.headerBuf.length + bytes.length ≤ otaFileHeaderBufferSize)
    (hful : hasCompleteHeader (st.headerBuf.length + bytes.length) = true)
    (hg : versionGate (extractVersion (st.headerBuf ++ bytes)) env.runningVersion
      env.lastInvalidVersion = Verdict.reject) :
    chunkStep env st bytes =
      { st with
        zeroReadCount := 0
        headerBuf := st.headerBuf ++ bytes
        err := ErrCause.rejectedKnownBad } := by
  rw [chunkStep_parse env st bytes hch hfit hful,
    parseFirmwareHeader_reject env
      { st with zeroReadCount := 0, headerBuf := st.headerBuf ++ bytes } (by exact hg)]

theorem chunkStep_skip (env : Env) (st : St) (bytes : List Nat)
    (hch : st.imageHeaderWasChecked = false)
    (hfit : st.headerBuf.length + bytes.length ≤ otaFileHeaderBufferSize)
    (hful : hasCompleteHeader (st.headerBuf.length + bytes.length) = true)
    (hg : versionGate (extractVersion (st.headerBuf ++ bytes)) env.runningVersion
      env.lastInvalidVersion = Verdict.skip) :
    chunkStep env st bytes =
      { st with
        zeroReadCount := 0
        headerBuf := st.headerBuf ++ bytes
        sameVersionDetected := true } := by
  rw [chunkStep_parse env st bytes hch hfit hful,
    parseFirmwareHeader_skip env
      { st with zeroReadCount := 0, headerBuf := st.headerBuf ++ bytes } (by exact hg)]

theorem chunkStep_begin_fail (env : Env) (st : St) (bytes : List Nat)
    (hch : st.imageHeaderWasChecked = false)
    (hfit : st.headerBuf.length + bytes.length ≤ otaFileHeaderBufferSize)
    (hful : hasCompleteHeader (st.headerBuf.length + bytes.length) = true)
    (hg : versionGate (extractVersion (st.headerBuf ++ bytes)) env.runningVersion
      env.lastInvalidVersion = Verdict.proceed)
    (hb : env.flash.beginOk = false) :
    chunkStep env st bytes =
      { st with
        zeroReadCount := 0
        headerBuf := st.headerBuf ++ bytes
        err := ErrCause.beginFailed
        ops := st.ops ++ [Op.otaBegin false] } := by
  rw [chunkStep_parse env st bytes hch hfit hful,
    parseFirmwareHeader_begin_fail env
      { st with zeroReadCount := 0, headerBuf := st.headerBuf ++ bytes } (by exact hg) hb]

theorem hasCompleteHeader_pos {n : Nat} (h : hasCompleteHeader n = true) : 0 < n := by
  have h1 := hasCompleteHeader_le h
  have h2 : 0 < hasCompleteHeaderMinSize := by
    simp [hasCompleteHeaderMinSize, sizeofEspImageHeader]
  omega

theorem chunkStep_proceed_ok (env : Env) (st : St) (bytes : List Nat)
    (hch : st.imageHeaderWasChecked = false)
    (hfit : st.headerBuf.length + bytes.length ≤ otaFileHeaderBufferSize)
    (hful : hasCompleteHeader (st.headerBuf.length + bytes.length) = true)
    (hg : versionGate (extractVersion (st.headerBuf ++ bytes)) env.runningVersion
      env.lastInvalidVersion = Verdict.proceed)
    (hb : env.flash.beginOk = true)
    (hw : env.flash.writeOk st.writeCalls = true) :
    chunkStep env st bytes =
      { st with
        zeroReadCount := 0
        headerBuf := st.headerBuf ++ bytes
        updateHandle := true
        sessionLive := true
        writeCalls := st.writeCalls + 1
        ops := st.ops ++ [Op.otaBegin true,
          Op.otaWrite (st.headerBuf.length + bytes.length) true]
        imageHeaderWasChecked := true
        binaryFileLength := st.headerBuf.length + bytes.length } := by
  have hpos :
      0 < ({ st with zeroReadCount := 0, headerBuf := st.headerBuf ++ bytes } : St).headerBuf.length := by
    show 0 < (st.headerBuf ++ bytes).length
    simpa [List.length_append] using hasCompleteHeader_pos hful
  rw [chunkStep_parse env st bytes hch hfit hful,
    parseFirmwareHeader_proceed_ok env
      { st with zeroReadCount := 0, headerBuf := st.headerBuf ++ bytes } (by exact hg) hb hpos
      (by exact hw)]
  simp [List.length_append]

theorem chunkStep_flush_fail (env : Env) (st : St) (bytes : List Nat)
    (hch : st.imageHeaderWasChecked = false)
    (hfit : st.headerBuf.length + bytes.length ≤ otaFileHeaderBufferSize)
    (hful : hasCompleteHeader (st.headerBuf.length + bytes.length) = true)
    (hg : versionGate (extractVersion (st.headerBuf ++ bytes)) env.runningVersion
      env.lastInvalidVersion = Verdict.proceed)
    (hb : env.flash.beginOk = true)
    (hw : env.flash.writeOk st.writeCalls = false) :
    chunkStep env st bytes =
      { st with
        zeroReadCount := 0
        headerBuf := st.headerBuf ++ bytes
        updateHandle := true
        sessionLive := false
        writeCalls := st.writeCalls + 1
        ops := st.ops ++ [Op.otaBegin true,
          Op.otaWrite (st.headerBuf.length + bytes.length) false, Op.otaAbort true]
        err := ErrCause.flushWriteFailed } := by
  have hpos :
      0 < ({ st with zeroReadCount := 0, headerBuf := st.headerBuf ++ bytes } : St).headerBuf.length := by
    show 0 < (st.headerBuf ++ bytes).length
    simpa [List.length_append] using hasCompleteHeader_pos hful
  rw [chunkStep_parse env st bytes hch hfit hful,
    parseFirmwareHeader_flush_fail env
      { st with zeroReadCount := 0, headerBuf := st.headerBuf ++ bytes } (by exact hg) hb hpos
      (by exact hw)]
  simp [List.length_append]

theorem loopInv_step (env : Env) (st : St) (e : Ev) (h : LoopInv st) :
    LoopInv (httpLoopStep env st e) := by
  by_cases hl : looping st = true
  case neg =>
    rw [step_dead e (by simpa using hl)]
    exact h
  case pos =>
  have herr := looping_err hl
  unfold httpLoopStep
  rw [if_pos hl]
  cases e with
  | readError =>
    exact loopInv_same_session st h hl _ rfl rfl rfl rfl rfl rfl rfl
  | zeroRead complete connReset =>
    obtain ⟨f1, f2, f3, f4, f5, f6, f7⟩ := zeroReadStep_fields st complete connReset
    exact loopInv_same_session st h hl _ f1 f2 f3 f4 f5 f6 f7
  | chunk bytes =>
    show LoopInv (chunkStep env st bytes)
    have hrst : st.restarted = false := loopInv_restarted h
    by_cases hch : st.imageHeaderWasChecked = true
    · rw [chunkStep_checked env st bytes (env.flash.writeOk st.writeCalls) hch rfl]
      exact loopInv_checked_write st h hl hch _ bytes.length (env.flash.writeOk st.writeCalls)
        rfl (by exact hch) rfl rfl rfl
    · simp only [Bool.not_eq_true] at hch
      obtain ⟨hops0, hh0, hs0, hbin0, hlen0⟩ := h.1 hl hch
      by_cases hfit : st.headerBuf.length + bytes.length ≤ otaFileHeaderBufferSize
      · by_cases hful : hasCompleteHeader (st.headerBuf.length + bytes.length) = true
        · rcases hg : versionGate (extractVersion (st.headerBuf ++ bytes)) env.runningVersion
              env.lastInvalidVersion with _ | _ | _
          · rw [chunkStep_reject env st bytes hch hfit hful hg]
            refine loopInv_simple _ (by exact hops0) (by exact hh0) (by exact hs0)
              (by exact hrst) (by exact hch) ?_
            intro hlp
            exact absurd (looping_err hlp) (by simp)
          · rw [chunkStep_skip env st bytes hch hfit hful hg]
            refine loopInv_simple _ (by exact hops0) (by exact hh0) (by exact hs0)
              (by exact hrst) (by exact hch) ?_
            intro hlp
            exact absurd (looping_not_sv hlp) (by simp)
          · by_cases hb : env.flash.beginOk = true
            · by_cases hw : env.flash.writeOk st.writeCalls = true
              · rw [chunkStep_proceed_ok env st bytes hch hfit hful hg hb hw]
                refine loopInv_proceed_ok _ (st.headerBuf.length + bytes.length) ?_ rfl rfl rfl
                  (by exact hrst)
                simp [hops0]
              · simp only [Bool.not_eq_true] at hw
                rw [chunkStep_flush_fail env st bytes hch hfit hful hg hb hw]
                refine loopInv_flush_fail _ (st.headerBuf.length + bytes.length) ?_ (by exact hch)
                  rfl rfl rfl (by exact hrst)
                simp [hops0]
            · simp only [Bool.not_eq_true] at hb
              rw [chunkStep_begin_fail env st bytes hch hfit hful hg hb]
              refine loopInv_begin_fail _ ?_ (by exact hch) (by exact hh0) (by exact hs0) rfl
                (by exact hrst)
              simp [hops0]
        · simp only [Bool.not_eq_true] at hful
          rw [chunkStep_accumulate env st bytes hch hfit hful]
          refine loopInv_simple _ (by exact hops0) (by exact hh0) (by exact hs0)
            (by exact hrst) (by exact hch) ?_
          intro _
          refine ⟨by exact hbin0, ?_⟩
          show (st.headerBuf ++ bytes).length < hasCompleteHeaderMinSize
          simp only [List.length_append]
          by_contra hcon
          push_neg at hcon
          rw [show hasCompleteHeader (st.headerBuf.length + bytes.length) = true by
            simpa [hasCompleteHeader] using hcon] at hful
          cases hful
      · rw [chunkStep_overflow env st bytes hch hfit (hasCompleteHeader_false hlen0)]
        refine loopInv_simple _ (by exact hops0) (by exact hh0) (by exact hs0)
          (by exact hrst) (by exact hch) ?_
        intro hlp
        exact absurd (looping_err hlp) (by simp)

theorem loopInv_run (env : Env) (evs : List Ev) (st : St) (h : LoopInv st) :
    LoopInv (List.foldl (httpLoopStep env) st evs) := by
  induction evs generalizing st with
  | nil => exact h
  | cons e evs ih => exact ih _ (loopInv_step env st e h)

theorem loopInv_loopRun (env : Env) (evs : List Ev) : LoopInv (loopRun env evs) :=
  loopInv_run env evs initSt loopInv_init

theorem finishOta_err_no_handle (env : Env) (st : St) (fc : Bool)
    (he : st.err ≠ ErrCause.ok) (hr : st.restarted = false)
    (hh : st.updateHandle = false) :
    finishOta env st fc = st := by
  unfold finishOta
  rw [if_neg he, if_neg (by rw [hr]; exact Bool.false_ne_true), if_neg (by rw [hh]; exact Bool.false_ne_true)]

theorem finishOta_err_abort (env : Env) (st : St) (fc : Bool)
    (he : st.err ≠ ErrCause.ok) (hr : st.restarted = false)
    (hh : st.updateHandle = true) :
    finishOta env st fc =
      { st with ops := st.ops ++ [Op.otaAbort st.sessionLive], sessionLive := false } := by
  unfold finishOta
  rw [if_neg he, if_neg (by rw [hr]; exact Bool.false_ne_true), if_pos hh]

theorem finishOta_ok_incomplete_no_handle (env : Env) (st : St)
    (he : st.err = ErrCause.ok) (hr : st.restarted = false)
    (hh : st.updateHandle = false) :
    finishOta env st false = st := by
  unfold finishOta
  rw [if_pos he, if_neg (Bool.false_ne_true), if_neg (by rw [hr]; exact Bool.false_ne_true),
    if_neg (by rw [hh]; exact Bool.false_ne_true)]

theorem finishOta_ok_incomplete_abort (env : Env) (st : St)
    (he : st.err = ErrCause.ok) (hr : st.restarted = false)
    (hh : st.updateHandle = true) :
    finishOta env st false =
      { st with ops := st.ops ++ [Op.otaAbort st.sessionLive], sessionLive := false } := by
  unfold finishOta
  rw [if_pos he, if_neg (Bool.false_ne_true), if_neg (by rw [hr]; exact Bool.false_ne_true),
    if_pos hh]

theorem finishOta_end_fail (env : Env) (st : St)
    (he : st.err = ErrCause.ok) (hr : st.restarted = false)
    (hend : (st.sessionLive && env.flash.endOk) = false) :
    finishOta env st true =
      { st with
        updateHandle := false
        sessionLive := false
        ops := st.ops ++ [Op.otaEnd st.sessionLive false]
        err := ErrCause.endFailed } := by
  unfold finishOta
  rw [if_pos he, if_pos rfl, hend]
  simp [hr]

theorem finishOta_set_boot_fail (env : Env) (st : St)
    (he : st.err = ErrCause.ok) (hr : st.restarted = false)
    (hs : st.sessionLive = true) (hend : env.flash.endOk = true)
    (hsb : env.flash.setBootOk = false) :
    finishOta env st true =
      { st with
        updateHandle := false
        sessionLive := false
        ops := st.ops ++ [Op.otaEnd true true, Op.setBoot false]
        err := ErrCause.setBootFailed } := by
  unfold finishOta
  rw [if_pos he, if_pos rfl, hs, hend, hsb]
  simp [hr]

theorem finishOta_commit (env : Env) (st : St)
    (he : st.err = ErrCause.ok) (_hr : st.restarted = false)
    (hs : st.sessionLive = true) (hend : env.flash.endOk = true)
    (hsb : env.flash.setBootOk = true) :
    finishOta env st true =
      { st with
        updateHandle := false
        sessionLive := false
        ops := st.ops ++ [Op.otaEnd true true, Op.setBoot true, Op.restart]
        restarted := true } := by
  unfold finishOta
  rw [if_pos he, if_pos rfl, hs, hend, hsb]
  simp

theorem outcomeOf_failed_of {st : St} (hr : st.restarted = false)
    (h1 : st.err ≠ ErrCause.rejectedKnownBad) (h2 : st.err ≠ ErrCause.ok) :
    outcomeOf st = Outcome.failed := by
  unfold outcomeOf
  rw [if_neg (by rw [hr]; exact Bool.false_ne_true), if_neg h1, if_neg h2]

theorem outcomeOf_rejected_of {st : St} (hr : st.restarted = false)
    (h1 : st.err = ErrCause.rejectedKnownBad) :
    outcomeOf st = Outcome.rejectedKnownBad := by
  unfold outcomeOf
  rw [if_neg (by rw [hr]; exact Bool.false_ne_true), if_pos h1]

theorem outcomeOf_noUpdate_of {st : St} (hr : st.restarted = false)
    (h1 : st.err = ErrCause.ok) :
    outcomeOf st = Outcome.noUpdateNeeded := by
  unfold outcomeOf
  rw [if_neg (by rw [hr]; exact Bool.false_ne_true), if_neg (by rw [h1]; intro hq; cases hq),
    if_pos h1]

theorem outcomeOf_updated_iff {st : St} : outcomeOf st = Outcome.updatedAndRebooting ↔
    st.restarted = true := by
  unfold outcomeOf
  constructor
  · intro hq
    by_contra hr
    rw [if_neg hr] at hq
    split_ifs at hq
  · intro hr
    rw [if_pos hr]

theorem updateRun_prefix_step_dead (env : Env) (p rest : List Ev) (e : Ev) (fc : Bool) (t : St)
    (hstep : httpLoopStep env (loopRun env p) e = t)
    (hdead : looping t = false) :
    updateRun env (p ++ e :: rest) fc = finishOta env t fc := by
  unfold updateRun loopRun
  rw [List.foldl_append, List.foldl_cons]
  rw [show List.foldl (httpLoopStep env) initSt p = loopRun env p from rfl]
  rw [hstep, foldl_dead rest hdead]

/-- Claim C7: after the header has been resolved, a zero-length read
observed together with a connection-reset / not-connected signal from the
transport is classified fatal and the invocation terminates with outcome
`failed` in every case - even when the transport simultaneously reports
that all data has been received (the `complete` flag is arbitrary here),
and regardless of the current consecutive-zero-read count (the state after
the prefix `p` is arbitrary).  This mirrors lines 330-333 of ota.c, where
the errno check precedes the complete-data check. -/
theorem c7_conn_reset_fatal (env : Env) (p rest : List Ev) (complete fc : Bool)
    (hlive : looping (loopRun env p) = true)
    (hch : (loopRun env p).imageHeaderWasChecked = true) :
    outcomeOf (updateRun env (p ++ Ev.zeroRead complete true :: rest) fc) = Outcome.failed := by
  have hinv := loopInv_loopRun env p
  have hstep : httpLoopStep env (loopRun env p) (Ev.zeroRead complete true) =
      { loopRun env p with
        zeroReadCount := (loopRun env p).zeroReadCount + 1
        err := ErrCause.connectionClosed } := by
    unfold httpLoopStep
    rw [if_pos hlive]
    show zeroReadStep (loopRun env p) complete true = _
    unfold zeroReadStep
    simp [hch]
  rw [updateRun_prefix_step_dead env p rest _ fc _ hstep (by simp [looping])]
  have hh : (loopRun env p).updateHandle = true := (hinv.2.1 hch).1
  have hrst : (loopRun env p).restarted = false := loopInv_restarted hinv
  rw [finishOta_err_abort env _ fc (by intro hq; cases hq) (by exact hrst) (by exact hh)]
  exact outcomeOf_failed_of (by exact hrst) (by intro hq; cases hq) (by intro hq; cases hq)

/-- Claim C8: while the header is unresolved, a chunk that would push the
accumulated header bytes beyond the fixed header-buffer capacity is
rejected as a fatal buffer-overflow condition: the invocation terminates
with outcome `failed`, and the engine has made no call at all into the
flash layer (so no write session exists at termination and the boot
selector is untouched: the op trace is empty). -/
theorem c8_overflow_guard (env : Env) (p rest : List Ev) (bytes : List Nat) (fc : Bool)
    (hlive : looping (loopRun env p) = true)
    (hch : (loopRun env p).imageHeaderWasChecked = false)
    (hover : otaFileHeaderBufferSize < (loopRun env p).headerBuf.length + bytes.length) :
    outcomeOf (updateRun env (p ++ Ev.chunk bytes :: rest) fc) = Outcome.failed ∧
    (updateRun env (p ++ Ev.chunk bytes :: rest) fc).ops = [] := by
  have hinv := loopInv_loopRun env p
  obtain ⟨hops0, hh0, hs0, hbin0, hlen0⟩ := hinv.1 hlive hch
  have hrst : (loopRun env p).restarted = false := loopInv_restarted hinv
  have hstep : httpLoopStep env (loopRun env p) (Ev.chunk bytes) =
      { loopRun env p with zeroReadCount := 0, err := ErrCause.bufferOverflow } := by
    unfold httpLoopStep
    rw [if_pos hlive]
    show chunkStep env (loopRun env p) bytes = _
    exact chunkStep_overflow env _ bytes hch (by omega) (hasCompleteHeader_false hlen0)
  rw [updateRun_prefix_step_dead env p rest _ fc _ hstep (by simp [looping])]
  rw [finishOta_err_no_handle env _ fc (by intro hq; cases hq) (by exact hrst) (by exact hh0)]
  constructor
  · exact outcomeOf_failed_of (by exact hrst) (by intro hq; cases hq) (by intro hq; cases hq)
  · exact hops0

/-- Claim C1: when a last-invalid partition exists and the candidate
descriptor's full fixed-width version field is byte-for-byte equal to the
last-invalid version field, the version gate returns `reject` before the
running-version comparison is consulted (first conjunct: the verdict is
`reject` for every possible running version), no write session is opened
and no other flash call is made (the op trace is empty), and the
invocation's terminal outcome is the rejected-known-bad branch - even when
the candidate differs from the running version.  `p` is the prefix of
reads during which the header was still accumulating and `bytes` is the
chunk that completes it. -/
theorem c1_anti_bootloop (env : Env) (iv : List Nat) (p rest : List Ev) (bytes : List Nat)
    (fc : Bool)
    (hinv0 : env.lastInvalidVersion = some iv)
    (hlive : looping (loopRun env p) = true)
    (hch : (loopRun env p).imageHeaderWasChecked = false)
    (hfit : (loopRun env p).headerBuf.length + bytes.length ≤ otaFileHeaderBufferSize)
    (hful : hasCompleteHeader ((loopRun env p).headerBuf.length + bytes.length) = true)
    (hcand : extractVersion ((loopRun env p).headerBuf ++ bytes) = iv) :
    (∀ running : List Nat, versionGate iv running (some iv) = Verdict.reject) ∧
    outcomeOf (updateRun env (p ++ Ev.chunk bytes :: rest) fc) = Outcome.rejectedKnownBad ∧
    (updateRun env (p ++ Ev.chunk bytes :: rest) fc).ops = [] := by
  have hinv := loopInv_loopRun env p
  obtain ⟨hops0, hh0, hs0, hbin0, hlen0⟩ := hinv.1 hlive hch
  have hrst : (loopRun env p).restarted = false := loopInv_restarted hinv
  have hgate : ∀ running : List Nat, versionGate iv running (some iv) = Verdict.reject := by
    intro running
    simp [versionGate]
  have hg : versionGate (extractVersion ((loopRun env p).headerBuf ++ bytes))
      env.runningVersion env.lastInvalidVersion = Verdict.reject := by
    rw [hcand, hinv0]
    exact hgate env.runningVersion
  have hstep : httpLoopStep env (loopRun env p) (Ev.chunk bytes) =
      { loopRun env p with
        zeroReadCount := 0
        headerBuf := (loopRun env p).headerBuf ++ bytes
        err := ErrCause.rejectedKnownBad } := by
    unfold httpLoopStep
    rw [if_pos hlive]
    show chunkStep env (loopRun env p) bytes = _
    exact chunkStep_reject env _ bytes hch hfit hful hg
  rw [updateRun_prefix_step_dead env p rest _ fc _ hstep (by simp [looping])]
  rw [finishOta_err_no_handle env _ fc (by intro hq; cases hq) (by exact hrst) (by exact hh0)]
  exact ⟨hgate, outcomeOf_rejected_of (by exact hrst) rfl, hops0⟩

theorem parseFirmwareHeader_count_err (env : Env) (st : St) :
    (parseFirmwareHeader env st).zeroReadCount = st.zeroReadCount ∧
    ((parseFirmwareHeader env st).err = st.err ∨
      (parseFirmwareHeader env st).err = ErrCause.rejectedKnownBad ∨
      (parseFirmwareHeader env st).err = ErrCause.beginFailed ∨
      (parseFirmwareHeader env st).err = ErrCause.flushWriteFailed) := by
  unfold parseFirmwareHeader
  split
  · exact ⟨rfl, Or.inr (Or.inl rfl)⟩
  · exact ⟨rfl, Or.inl rfl⟩
  · by_cases hb : env.flash.beginOk = true <;>
      by_cases hpos : 0 < st.headerBuf.length <;>
        by_cases hw : env.flash.writeOk st.writeCalls = true <;>
          simp [hb, hpos, hw]

theorem chunkStep_count_err (env : Env) (st : St) (b : List Nat) :
    (chunkStep env st b).zeroReadCount = 0 ∧
    ((chunkStep env st b).err = st.err ∨
      (chunkStep env st b).err = ErrCause.writeFailed ∨
      (chunkStep env st b).err = ErrCause.bufferOverflow ∨
      (chunkStep env st b).err = ErrCause.rejectedKnownBad ∨
      (chunkStep env st b).err = ErrCause.beginFailed ∨
      (chunkStep env st b).err = ErrCause.flushWriteFailed) := by
  unfold chunkStep
  dsimp only
  split_ifs with hch hw hfit hful hful
  · exact ⟨rfl, Or.inl rfl⟩
  · exact ⟨rfl, Or.inr (Or.inl rfl)⟩
  · obtain ⟨hc, he⟩ := parseFirmwareHeader_count_err env
      { st with zeroReadCount := 0, headerBuf := st.headerBuf ++ b }
    refine ⟨by rw [hc], ?_⟩
    rcases he with h | h | h | h <;> rw [h]
    · exact Or.inl rfl
    · exact Or.inr (Or.inr (Or.inr (Or.inl rfl)))
    · exact Or.inr (Or.inr (Or.inr (Or.inr (Or.inl rfl))))
    · exact Or.inr (Or.inr (Or.inr (Or.inr (Or.inr rfl))))
  · exact ⟨rfl, Or.inl rfl⟩
  · obtain ⟨hc, he⟩ := parseFirmwareHeader_count_err env
      { st with zeroReadCount := 0, err := ErrCause.bufferOverflow }
    refine ⟨by rw [hc], ?_⟩
    rcases he with h | h | h | h <;> rw [h]
    · exact Or.inr (Or.inr (Or.inl rfl))
    · exact Or.inr (Or.inr (Or.inr (Or.inl rfl)))
    · exact Or.inr (Or.inr (Or.inr (Or.inr (Or.inl rfl))))
    · exact Or.inr (Or.inr (Or.inr (Or.inr (Or.inr rfl))))
  · exact ⟨rfl, Or.inr (Or.inr (Or.inl rfl))⟩

theorem zeroReadStep_no_limit (st : St) (c r : Bool)
    (hcnt : st.zeroReadCount + 1 < maxZeroReads) :
    (zeroReadStep st c r).zeroReadCount = st.zeroReadCount + 1 ∧
    ((zeroReadStep st c r).err = st.err ∨
      (zeroReadStep st c r).err = ErrCause.connectionClosed ∨
      (zeroReadStep st c r).err = ErrCause.eofBeforeHeader) := by
  unfold zeroReadStep
  dsimp only
  split_ifs with h1 h2 h3 h4 h5 h6 <;>
    first
      | exact ⟨rfl, Or.inl rfl⟩
      | exact ⟨rfl, Or.inr (Or.inl rfl)⟩
      | exact ⟨rfl, Or.inr (Or.inr rfl)⟩
      | omega

theorem finishOta_err_mem (env : Env) (st : St) (fc : Bool) :
    (finishOta env st fc).err = st.err ∨
    (finishOta env st fc).err = ErrCause.endFailed ∨
    (finishOta env st fc).err = ErrCause.setBootFailed := by
  unfold finishOta
  dsimp only
  split_ifs <;> simp

theorem zeroRuns_no_limit (env : Env) (evs : List Ev) (st : St)
    (hz : zeroRunsOk st.zeroReadCount evs = true)
    (h1 : st.err ≠ ErrCause.zeroReadsHeaderLimit)
    (h2 : st.err ≠ ErrCause.zeroReadsDataLimit) :
    (List.foldl (httpLoopStep env) st evs).err ≠ ErrCause.zeroReadsHeaderLimit ∧
    (List.foldl (httpLoopStep env) st evs).err ≠ ErrCause.zeroReadsDataLimit := by
  induction evs generalizing st with
  | nil => exact ⟨h1, h2⟩
  | cons e evs ih =>
    rw [List.foldl_cons]
    by_cases hl : looping st = true
    case neg =>
      rw [step_dead e (by simpa using hl), foldl_dead evs (by simpa using hl)]
      exact ⟨h1, h2⟩
    case pos =>
    cases e with
    | readError =>
      have hstep : httpLoopStep env st Ev.readError = { st with err := ErrCause.sslReadError } := by
        unfold httpLoopStep
        rw [if_pos hl]
      rw [hstep, foldl_dead evs (by simp [looping])]
      exact ⟨(by intro hq; cases hq), (by intro hq; cases hq)⟩
    | chunk b =>
      have hstep : httpLoopStep env st (Ev.chunk b) = chunkStep env st b := by
        unfold httpLoopStep
        rw [if_pos hl]
      rw [hstep]
      obtain ⟨hc, he⟩ := chunkStep_count_err env st b
      have herr := looping_err hl
      refine ih (chunkStep env st b) ?_ ?_ ?_
      · rw [hc]
        simpa [zeroRunsOk] using hz
      · rcases he with h | h | h | h | h | h <;> rw [h] <;> first
          | (rw [herr]; intro hq; cases hq)
          | (intro hq; cases hq)
      · rcases he with h | h | h | h | h | h <;> rw [h] <;> first
          | (rw [herr]; intro hq; cases hq)
          | (intro hq; cases hq)
    | zeroRead c r =>
      have hstep : httpLoopStep env st (Ev.zeroRead c r) = zeroReadStep st c r := by
        unfold httpLoopStep
        rw [if_pos hl]
      rw [hstep]
      have hzr : (decide (st.zeroReadCount + 1 < maxZeroReads) &&
          zeroRunsOk (st.zeroReadCount + 1) evs) = true := by
        simpa [zeroRunsOk] using hz
      simp only [Bool.and_eq_true, decide_eq_true_eq] at hzr
      obtain ⟨hcnt, hz'⟩ := hzr
      obtain ⟨hc, he⟩ := zeroReadStep_no_limit st c r hcnt
      have herr := looping_err hl
      refine ih (zeroReadStep st c r) ?_ ?_ ?_
      · rw [hc]
        exact hz'
      · rcases he with h | h | h <;> rw [h] <;> first
          | (rw [herr]; intro hq; cases hq)
          | (intro hq; cases hq)
      · rcases he with h | h | h <;> rw [h] <;> first
          | (rw [herr]; intro hq; cases hq)
          | (intro hq; cases hq)

/-- Claim C6: with the zero-read ceiling fixed at 10 and the counter reset
on every positive read, (a) a trace whose runs of consecutive zero-length
reads all stay below the ceiling never terminates with the
too-many-empty-reads classification (neither the pre-header nor the
post-header variant), and (b) whenever the loop is still live with the
consecutive-zero-read counter at 9, one further zero-length read with the
transport not reporting completion (and no reset signal) terminates the
invocation with outcome `failed`. -/
theorem c6_zero_read_tolerance (env : Env) (fc : Bool) :
    maxZeroReads = 10 ∧
    (∀ evs : List Ev, zeroRunsOk 0 evs = true →
      (updateRun env evs fc).err ≠ ErrCause.zeroReadsHeaderLimit ∧
      (updateRun env evs fc).err ≠ ErrCause.zeroReadsDataLimit) ∧
    (∀ p rest : List Ev, looping (loopRun env p) = true →
      (loopRun env p).zeroReadCount = 9 →
      outcomeOf (updateRun env (p ++ Ev.zeroRead false false :: rest) fc) = Outcome.failed) := by
  refine ⟨rfl, ?_, ?_⟩
  · intro evs hz
    have hrun := zeroRuns_no_limit env evs initSt (by simpa [initSt] using hz)
      (by intro hq; cases hq) (by intro hq; cases hq)
    have hfin := finishOta_err_mem env (loopRun env evs) fc
    constructor
    · rcases hfin with h | h | h <;> rw [updateRun, h]
      · exact hrun.1
      · intro hq; cases hq
      · intro hq; cases hq
    · rcases hfin with h | h | h <;> rw [updateRun, h]
      · exact hrun.2
      · intro hq; cases hq
      · intro hq; cases hq
  · intro p rest hlive hcnt
    have hinv := loopInv_loopRun env p
    have hrst : (loopRun env p).restarted = false := loopInv_restarted hinv
    by_cases hch : (loopRun env p).imageHeaderWasChecked = true
    · have hstep : httpLoopStep env (loopRun env p) (Ev.zeroRead false false) =
          { loopRun env p with
            zeroReadCount := (loopRun env p).zeroReadCount + 1
            err := ErrCause.zeroReadsDataLimit } := by
        unfold httpLoopStep
        rw [if_pos hlive]
        show zeroReadStep (loopRun env p) false false = _
        unfold zeroReadStep
        simp [hch, hcnt, maxZeroReads]
      rw [updateRun_prefix_step_dead env p rest _ fc _ hstep (by simp [looping])]
      have hh : (loopRun env p).updateHandle = true := (hinv.2.1 hch).1
      rw [finishOta_err_abort env _ fc (by intro hq; cases hq) (by exact hrst) (by exact hh)]
      exact outcomeOf_failed_of (by exact hrst) (by intro hq; cases hq) (by intro hq; cases hq)
    · simp only [Bool.not_eq_true] at hch
      obtain ⟨hops0, hh0, hs0, hbin0, hlen0⟩ := hinv.1 hlive hch
      have hstep : httpLoopStep env (loopRun env p) (Ev.zeroRead false false) =
          { loopRun env p with
            zeroReadCount := (loopRun env p).zeroReadCount + 1
            err := ErrCause.zeroReadsHeaderLimit } := by
        unfold httpLoopStep
        rw [if_pos hlive]
        show zeroReadStep (loopRun env p) false false = _
        unfold zeroReadStep
        simp [hch, hcnt, maxZeroReads]
      rw [updateRun_prefix_step_dead env p rest _ fc _ hstep (by simp [looping])]
      rw [finishOta_err_no_handle env _ fc (by intro hq; cases hq) (by exact hrst) (by exact hh0)]
      exact outcomeOf_failed_of (by exact hrst) (by intro hq; cases hq) (by intro hq; cases hq)

theorem httpLoopStep_no_overflow (env : Env) (st : St) (e : Ev)
    (hinv : LoopInv st) (hbnd : evBounded e = true)
    (hno : st.err ≠ ErrCause.bufferOverflow) :
    (httpLoopStep env st e).err ≠ ErrCause.bufferOverflow := by
  by_cases hl : looping st = true
  case neg =>
    rw [step_dead e (by simpa using hl)]
    exact hno
  case pos =>
  have herr := looping_err hl
  unfold httpLoopStep
  rw [if_pos hl]
  cases e with
  | readError =>
    intro hq
    cases hq
  | zeroRead c r =>
    show (zeroReadStep st c r).err ≠ ErrCause.bufferOverflow
    unfold zeroReadStep
    dsimp only
    split_ifs <;> first
      | (intro hq; cases hq)
      | (rw [herr]; intro hq; cases hq)
  | chunk bytes =>
    show (chunkStep env st bytes).err ≠ ErrCause.bufferOverflow
    by_cases hch : st.imageHeaderWasChecked = true
    · rw [chunkStep_checked env st bytes (env.flash.writeOk st.writeCalls) hch rfl]
      show (if env.flash.writeOk st.writeCalls then st.err else ErrCause.writeFailed) ≠ _
      split_ifs
      · rw [herr]; intro hq; cases hq
      · intro hq; cases hq
    · simp only [Bool.not_eq_true] at hch
      obtain ⟨hops0, hh0, hs0, hbin0, hlen0⟩ := hinv.1 hl hch
      have hmin : hasCompleteHeaderMinSize = 1312 := rfl
      have hcap : otaFileHeaderBufferSize = 8192 := rfl
      have hbuf : otaBufferSize = 1024 := rfl
      have hblen : bytes.length ≤ otaBufferSize := by simpa [evBounded] using hbnd
      have hfit : st.headerBuf.length + bytes.length ≤ otaFileHeaderBufferSize := by omega
      by_cases hful : hasCompleteHeader (st.headerBuf.length + bytes.length) = true
      · rw [chunkStep_parse env st bytes hch hfit hful]
        obtain ⟨hc, he⟩ := parseFirmwareHeader_count_err env
          { st with zeroReadCount := 0, headerBuf := st.headerBuf ++ bytes }
        rcases he with h | h | h | h <;> rw [h] <;> first
          | (show st.err ≠ _; rw [herr]; intro hq; cases hq)
          | (intro hq; cases hq)
      · simp only [Bool.not_eq_true] at hful
        rw [chunkStep_accumulate env st bytes hch hfit hful]
        show st.err ≠ _
        rw [herr]
        intro hq
        cases hq

theorem run_no_overflow (env : Env) (evs : List Ev) (st : St)
    (hall : evs.all evBounded = true) (hinv : LoopInv st)
    (hno : st.err ≠ ErrCause.bufferOverflow) :
    (List.foldl (httpLoopStep env) st evs).err ≠ ErrCause.bufferOverflow := by
  induction evs generalizing st with
  | nil => exact hno
  | cons e evs ih =>
    simp only [List.all_cons, Bool.and_eq_true] at hall
    rw [List.foldl_cons]
    exact ih (httpLoopStep env st e) hall.2 (loopInv_step env st e hinv)
      (httpLoopStep_no_overflow env st e hinv hall.1 hno)

/-- Claim C10 (implicit): under the engine's own read bound - every
network read returns at most OTA_BUFFER_SIZE (1024) bytes - the
header-buffer-overflow error branch is unreachable: no run over bounded
chunks ever terminates with the buffer-overflow classification.  The
arithmetic reason is the second conjunct: while unresolved the
accumulated count stays below the completion threshold, so one append
reaches at most threshold - 1 + 1024, strictly less than the 8192-byte
capacity. -/
theorem c10_overflow_unreachable (env : Env) (evs : List Ev) (fc : Bool)
    (hall : evs.all evBounded = true) :
    (updateRun env evs fc).err ≠ ErrCause.bufferOverflow ∧
    hasCompleteHeaderMinSize - 1 + otaBufferSize < otaFileHeaderBufferSize := by
  constructor
  · have hrun := run_no_overflow env evs initSt hall loopInv_init (by intro hq; cases hq)
    rcases finishOta_err_mem env (loopRun env evs) fc with h | h | h <;> rw [updateRun, h]
    · exact hrun
    · intro hq; cases hq
    · intro hq; cases hq
  · decide

theorem finishOta_preserves (env : Env) (st : St) (fc : Bool) :
    (finishOta env st fc).transferComplete = st.transferComplete ∧
    (finishOta env st fc).binaryFileLength = st.binaryFileLength := by
  unfold finishOta
  dsimp only
  split_ifs <;> exact ⟨rfl, rfl⟩

theorem chunk_live_step (env : Env) (st : St) (c : List Nat) (B : Nat)
    (hl : looping st = true) (hinv : LoopInv st)
    (hP : (st.imageHeaderWasChecked = false ∧ st.headerBuf.length = B ∧
            st.binaryFileLength = 0) ∨
          (st.imageHeaderWasChecked = true ∧ st.binaryFileLength = B)) :
    (looping (chunkStep env st c) = true ∧
      (((chunkStep env st c).imageHeaderWasChecked = false ∧
        (chunkStep env st c).headerBuf.length = B + c.length ∧
        (chunkStep env st c).binaryFileLength = 0) ∨
       ((chunkStep env st c).imageHeaderWasChecked = true ∧
        (chunkStep env st c).binaryFileLength = B + c.length))) ∨
    (looping (chunkStep env st c) = false ∧
      (chunkStep env st c).transferComplete = false) := by
  have herr := looping_err hl
  have htc := looping_not_tc hl
  have hsv := looping_not_sv hl
  rcases hP with ⟨hch, hlen, hbin⟩ | ⟨hch, hbin⟩
  · obtain ⟨hops0, hh0, hs0, hbin0, hlen0⟩ := hinv.1 hl hch
    by_cases hfit : st.headerBuf.length + c.length ≤ otaFileHeaderBufferSize
    · by_cases hful : hasCompleteHeader (st.headerBuf.length + c.length) = true
      · rcases hg : versionGate (extractVersion (st.headerBuf ++ c)) env.runningVersion
            env.lastInvalidVersion with _ | _ | _
        · rw [chunkStep_reject env st c hch hfit hful hg]
          exact Or.inr ⟨by simp [looping], by exact htc⟩
        · rw [chunkStep_skip env st c hch hfit hful hg]
          exact Or.inr ⟨by simp [looping], by exact htc⟩
        · by_cases hb : env.flash.beginOk = true
          · by_cases hw : env.flash.writeOk st.writeCalls = true
            · rw [chunkStep_proceed_ok env st c hch hfit hful hg hb hw]
              refine Or.inl ⟨by simp [looping, herr, htc, hsv], Or.inr ⟨rfl, ?_⟩⟩
              show st.headerBuf.length + c.length = B + c.length
              rw [hlen]
            · simp only [Bool.not_eq_true] at hw
              rw [chunkStep_flush_fail env st c hch hfit hful hg hb hw]
              exact Or.inr ⟨by simp [looping], by exact htc⟩
          · simp only [Bool.not_eq_true] at hb
            rw [chunkStep_begin_fail env st c hch hfit hful hg hb]
            exact Or.inr ⟨by simp [looping], by exact htc⟩
      · simp only [Bool.not_eq_true] at hful
        rw [chunkStep_accumulate env st c hch hfit hful]
        refine Or.inl ⟨by simp [looping, herr, htc, hsv], Or.inl ⟨by exact hch, ?_, by exact hbin⟩⟩
        show (st.headerBuf ++ c).length = B + c.length
        rw [List.length_append, hlen]
    · rw [chunkStep_overflow env st c hch (by omega) (hasCompleteHeader_false hlen0)]
      exact Or.inr ⟨by simp [looping], by exact htc⟩
  · rw [chunkStep_checked env st c (env.flash.writeOk st.writeCalls) hch rfl]
    by_cases hw : env.flash.writeOk st.writeCalls = true
    · rw [hw]
      refine Or.inl ⟨by simp [looping, herr, htc, hsv], Or.inr ⟨by exact hch, ?_⟩⟩
      show st.binaryFileLength + c.length = B + c.length
      rw [hbin]
    · simp only [Bool.not_eq_true] at hw
      rw [hw]
      exact Or.inr ⟨by simp [looping], by exact htc⟩

theorem c5_chunks_run (env : Env) (cs : List (List Nat)) (st : St) (B : Nat)
    (hl : looping st = true) (hinv : LoopInv st)
    (hP : (st.imageHeaderWasChecked = false ∧ st.headerBuf.length = B ∧
            st.binaryFileLength = 0) ∨
          (st.imageHeaderWasChecked = true ∧ st.binaryFileLength = B)) :
    (looping (List.foldl (httpLoopStep env) st (cs.map Ev.chunk)) = true ∧
      (((List.foldl (httpLoopStep env) st (cs.map Ev.chunk)).imageHeaderWasChecked = false ∧
        (List.foldl (httpLoopStep env) st (cs.map Ev.chunk)).headerBuf.length =
          B + (cs.map List.length).sum ∧
        (List.foldl (httpLoopStep env) st (cs.map Ev.chunk)).binaryFileLength = 0) ∨
       ((List.foldl (httpLoopStep env) st (cs.map Ev.chunk)).imageHeaderWasChecked = true ∧
        (List.foldl (httpLoopStep env) st (cs.map Ev.chunk)).binaryFileLength =
          B + (cs.map List.length).sum))) ∨
    (looping (List.foldl (httpLoopStep env) st (cs.map Ev.chunk)) = false ∧
      (List.foldl (httpLoopStep env) st (cs.map Ev.chunk)).transferComplete = false) := by
  induction cs generalizing st B with
  | nil =>
    left
    simpa using ⟨hl, hP⟩
  | cons c cs ih =>
    simp only [List.map_cons, List.foldl_cons]
    have hstep : httpLoopStep env st (Ev.chunk c) = chunkStep env st c := by
      unfold httpLoopStep
      rw [if_pos hl]
    rw [hstep]
    rcases chunk_live_step env st c B hl hinv hP with ⟨hlp, hP'⟩ | ⟨hdead, htc'⟩
    · have hinv' : LoopInv (chunkStep env st c) := by
        rw [← hstep]
        exact loopInv_step env st _ hinv
      rcases ih (chunkStep env st c) (B + c.length) hlp hinv' hP' with ⟨hlp2, hcases⟩ | hdead2
      · left
        refine ⟨hlp2, ?_⟩
        rcases hcases with ⟨a, b2, c2⟩ | ⟨a, b2⟩
        · refine Or.inl ⟨a, ?_, c2⟩
          rw [b2, List.sum_cons]
          omega
        · refine Or.inr ⟨a, ?_⟩
          rw [b2, List.sum_cons]
          omega
      · right
        exact hdead2
    · right
      rw [foldl_dead _ hdead]
      exact ⟨hdead, htc'⟩

theorem httpLoopStep_live_chunk (env : Env) (st : St) (bytes : List Nat)
    (hl : looping st = true) :
    httpLoopStep env st (Ev.chunk bytes) = chunkStep env st bytes := by
  unfold httpLoopStep
  rw [if_pos hl]

theorem httpLoopStep_live_zero (env : Env) (st : St) (c r : Bool)
    (hl : looping st = true) :
    httpLoopStep env st (Ev.zeroRead c r) = zeroReadStep st c r := by
  unfold httpLoopStep
  rw [if_pos hl]

set_option linter.unusedVariables false in
/-- Claim C5: for any sequence of positive-length chunks summing to N
bytes that drives the engine to the commit point (the graceful
transfer-complete exit), `binary_file_length` at commit time equals
exactly N: the accumulated header region is counted exactly once when it
is flushed at session open, and every subsequent chunk adds exactly its
own length - no byte is duplicated or dropped across the header/body
boundary. -/
theorem c5_byte_accounting (env : Env) (cs : List (List Nat)) (fc : Bool)
    (hne : cs.all (fun c => !c.isEmpty) = true)
    (hcommit : (updateRun env (cs.map Ev.chunk ++ [Ev.zeroRead true false]) fc).transferComplete =
      true) :
    (updateRun env (cs.map Ev.chunk ++ [Ev.zeroRead true false]) fc).binaryFileLength =
      (cs.map List.length).sum := by
  have hpres := finishOta_preserves env
    (loopRun env (cs.map Ev.chunk ++ [Ev.zeroRead true false])) fc
  rw [updateRun] at hcommit ⊢
  rw [hpres.1] at hcommit
  rw [hpres.2]
  rw [loopRun, List.foldl_append, List.foldl_cons, List.foldl_nil] at hcommit ⊢
  rcases c5_chunks_run env cs initSt 0 rfl loopInv_init (Or.inl ⟨rfl, rfl, rfl⟩) with
    ⟨hlp, hcases⟩ | ⟨hdead, htcf⟩
  · rw [httpLoopStep_live_zero env _ true false hlp] at hcommit ⊢
    rcases hcases with ⟨hch, hlen, hbin⟩ | ⟨hch, hbin⟩
    · exfalso
      have hz : (zeroReadStep (List.foldl (httpLoopStep env) initSt (cs.map Ev.chunk))
          true false).transferComplete = false := by
        unfold zeroReadStep
        simp [hch, looping_not_tc hlp]
      rw [hz] at hcommit
      cases hcommit
    · have hzz : (zeroReadStep (List.foldl (httpLoopStep env) initSt (cs.map Ev.chunk))
          true false).binaryFileLength =
          (List.foldl (httpLoopStep env) initSt (cs.map Ev.chunk)).binaryFileLength := by
        unfold zeroReadStep
        simp [hch]
      rw [hzz, hbin]
      omega
  · exfalso
    rw [step_dead _ hdead, htcf] at hcommit
    cases hcommit

theorem finish_cases (env : Env) (st : St) (fc : Bool) (hr : st.restarted = false)
    (motive : St → Prop)
    (h1 : (st.err ≠ ErrCause.ok ∨ fc = false) → st.updateHandle = false → motive st)
    (h2 : (st.err ≠ ErrCause.ok ∨ fc = false) → st.updateHandle = true →
      motive { st with ops := st.ops ++ [Op.otaAbort st.sessionLive], sessionLive := false })
    (h3 : st.err = ErrCause.ok → fc = true → (st.sessionLive && env.flash.endOk) = false →
      motive { st with
        updateHandle := false
        sessionLive := false
        ops := st.ops ++ [Op.otaEnd st.sessionLive false]
        err := ErrCause.endFailed })
    (h4 : st.err = ErrCause.ok → fc = true → st.sessionLive = true →
      env.flash.endOk = true → env.flash.setBootOk = false →
      motive { st with
        updateHandle := false
        sessionLive := false
        ops := st.ops ++ [Op.otaEnd true true, Op.setBoot false]
        err := ErrCause.setBootFailed })
    (h5 : st.err = ErrCause.ok → fc = true → st.sessionLive = true →
      env.flash.endOk = true → env.flash.setBootOk = true →
      motive { st with
        updateHandle := false
        sessionLive := false
        ops := st.ops ++ [Op.otaEnd true true, Op.setBoot true, Op.restart]
        restarted := true }) :
    motive (finishOta env st fc) := by
  by_cases he : st.err = ErrCause.ok
  · cases fc with
    | false =>
      by_cases hh : st.updateHandle = true
      · rw [finishOta_ok_incomplete_abort env st he hr hh]
        exact h2 (Or.inr rfl) hh
      · simp only [Bool.not_eq_true] at hh
        rw [finishOta_ok_incomplete_no_handle env st he hr hh]
        exact h1 (Or.inr rfl) hh
    | true =>
      by_cases hend : (st.sessionLive && env.flash.endOk) = true
      · simp only [Bool.and_eq_true] at hend
        by_cases hsb : env.flash.setBootOk = true
        · rw [finishOta_commit env st he hr hend.1 hend.2 hsb]
          exact h5 he rfl hend.1 hend.2 hsb
        · simp only [Bool.not_eq_true] at hsb
          rw [finishOta_set_boot_fail env st he hr hend.1 hend.2 hsb]
          exact h4 he rfl hend.1 hend.2 hsb
      · simp only [Bool.not_eq_true] at hend
        rw [finishOta_end_fail env st he hr hend]
        exact h3 he rfl hend
  · by_cases hh : st.updateHandle = true
    · rw [finishOta_err_abort env st fc he hr hh]
      exact h2 (Or.inl he) hh
    · simp only [Bool.not_eq_true] at hh
      rw [finishOta_err_no_handle env st fc he hr hh]
      exact h1 (Or.inl he) hh

theorem session_closed_of_begun (env : Env) (evs : List Ev) (fc : Bool)
    (hb : Op.otaBegin true ∈ (updateRun env evs fc).ops) :
    Op.otaAbort true ∈ (updateRun env evs fc).ops ∨
    ∃ k, Op.otaEnd true k ∈ (updateRun env evs fc).ops := by
  have hinv := loopInv_loopRun env evs
  have hrst : (loopRun env evs).restarted = false := loopInv_restarted hinv
  rw [updateRun] at hb ⊢
  revert hb
  refine finish_cases env (loopRun env evs) fc hrst
    (fun t => Op.otaBegin true ∈ t.ops →
      Op.otaAbort true ∈ t.ops ∨ ∃ k, Op.otaEnd true k ∈ t.ops) ?_ ?_ ?_ ?_ ?_
  · intro _ hh hmem
    obtain ⟨hh2, _⟩ := hinv.2.2.1 hmem
    rw [hh] at hh2
    cases hh2
  · intro _ hh hmem
    simp only [List.mem_append, List.mem_singleton] at hmem
    rcases hmem with hmem | hmem
    · obtain ⟨_, hcl⟩ := hinv.2.2.1 hmem
      rcases hcl with hsl | hab
      · left
        simp [hsl]
      · left
        simp [hab]
    · cases hmem
  · intro _ _ _ hmem
    simp only [List.mem_append, List.mem_singleton] at hmem
    rcases hmem with hmem | hmem
    · obtain ⟨_, hcl⟩ := hinv.2.2.1 hmem
      rcases hcl with hsl | hab
      · right
        exact ⟨false, by simp [hsl]⟩
      · left
        simp [hab]
    · cases hmem
  · intro _ _ _ _ _ _
    right
    exact ⟨true, by simp⟩
  · intro _ _ _ _ _ _
    right
    exact ⟨true, by simp⟩

theorem updateRun_sessionLive_false (env : Env) (evs : List Ev) (fc : Bool) :
    (updateRun env evs fc).sessionLive = false := by
  have hinv := loopInv_loopRun env evs
  have hrst : (loopRun env evs).restarted = false := loopInv_restarted hinv
  rw [updateRun]
  refine finish_cases env (loopRun env evs) fc hrst (fun t => t.sessionLive = false)
    ?_ ?_ ?_ ?_ ?_
  · intro _ hh
    by_contra hcon
    simp only [Bool.not_eq_false] at hcon
    rw [hinv.2.2.2.2.2.2.2.2.2.2.2.2.2 hcon] at hh
    cases hh
  · intro _ _
    rfl
  · intro _ _ _
    rfl
  · intro _ _ _ _ _
    rfl
  · intro _ _ _ _ _
    rfl

theorem outcome_fatal_elim {st : St}
    (h : outcomeOf st = Outcome.failed ∨ outcomeOf st = Outcome.rejectedKnownBad) :
    st.restarted = false ∧ st.err ≠ ErrCause.ok := by
  unfold outcomeOf at h
  by_cases hr : st.restarted = true
  · rw [if_pos hr] at h
    rcases h with h | h <;> cases h
  · simp only [Bool.not_eq_true] at hr
    refine ⟨hr, ?_⟩
    intro he
    rw [if_neg (by rw [hr]; exact Bool.false_ne_true),
      if_neg (by rw [he]; intro hq; cases hq), if_pos he] at h
    rcases h with h | h <;> cases h

/-- Claim C9: the fatal terminal path of the composed program (ota.c's
`update` plus app_main's handling of a nonzero `ota_update` return in the
main source file): whenever the invocation's outcome is `failed` or
`rejected-known-bad`, app_main's terminal action is the unconditional
restart branch - control never continues into the application - and by
then any write session that was opened has been closed (aborted, or
subjected to the finalize call) and no session is left live.  The
diagnostic emission on this path (ESP_LOGE before esp_restart) is a log
side effect outside the state model. -/
theorem c9_fatal_path_restarts (env : Env) (evs : List Ev) (fc : Bool)
    (h : outcomeOf (updateRun env evs fc) = Outcome.failed ∨
         outcomeOf (updateRun env evs fc) = Outcome.rejectedKnownBad) :
    appMainTerminal (updateRun env evs fc) = TerminalAction.restartAfterFailure ∧
    (updateRun env evs fc).sessionLive = false ∧
    (Op.otaBegin true ∈ (updateRun env evs fc).ops →
      Op.otaAbort true ∈ (updateRun env evs fc).ops ∨
      ∃ k, Op.otaEnd true k ∈ (updateRun env evs fc).ops) := by
  obtain ⟨hr, he⟩ := outcome_fatal_elim h
  refine ⟨?_, updateRun_sessionLive_false env evs fc, session_closed_of_begun env evs fc⟩
  unfold appMainTerminal
  rw [if_neg (by rw [hr]; exact Bool.false_ne_true), if_neg he]

theorem countP_end_zero {l : List Op} (h : ∀ a b, Op.otaEnd a b ∉ l) :
    l.countP isEndOp = 0 := by
  rw [List.countP_eq_zero]
  intro a ha
  match a with
  | Op.otaEnd x y => exact absurd ha (h x y)
  | Op.otaBegin _ => simp [isEndOp]
  | Op.otaWrite _ _ => simp [isEndOp]
  | Op.otaAbort _ => simp [isEndOp]
  | Op.setBoot _ => simp [isEndOp]
  | Op.restart => simp [isEndOp]

theorem countP_setBootTrue_zero {l : List Op} (h : ∀ b, Op.setBoot b ∉ l) :
    l.countP isSetBootTrueOp = 0 := by
  rw [List.countP_eq_zero]
  intro a ha
  match a with
  | Op.setBoot x => exact absurd ha (h x)
  | Op.otaEnd _ _ => simp [isSetBootTrueOp]
  | Op.otaBegin _ => simp [isSetBootTrueOp]
  | Op.otaWrite _ _ => simp [isSetBootTrueOp]
  | Op.otaAbort _ => simp [isSetBootTrueOp]
  | Op.restart => simp [isSetBootTrueOp]

theorem countP_abortTrue_le (l : List Op) : l.countP isAbortTrueOp ≤ l.countP isAbortOp := by
  refine List.countP_mono_left ?_
  intro a _ hp
  match a with
  | Op.otaAbort x => simp [isAbortOp]
  | Op.otaEnd _ _ => simp [isAbortTrueOp] at hp
  | Op.otaBegin _ => simp [isAbortTrueOp] at hp
  | Op.otaWrite _ _ => simp [isAbortTrueOp] at hp
  | Op.setBoot _ => simp [isAbortTrueOp] at hp
  | Op.restart => simp [isAbortTrueOp] at hp

theorem countP_abortTrue_zero {l : List Op} (h : Op.otaAbort true ∉ l) :
    l.countP isAbortTrueOp = 0 := by
  rw [List.countP_eq_zero]
  intro a ha
  match a with
  | Op.otaAbort true => exact absurd ha h
  | Op.otaAbort false => simp [isAbortTrueOp]
  | Op.otaEnd _ _ => simp [isAbortTrueOp]
  | Op.otaBegin _ => simp [isAbortTrueOp]
  | Op.otaWrite _ _ => simp [isAbortTrueOp]
  | Op.setBoot _ => simp [isAbortTrueOp]
  | Op.restart => simp [isAbortTrueOp]

/-- Claim C2 (amended): the boot selector is successfully repointed at
most once, and only in the updated-and-rebooting outcome after the
finalize step succeeded on an open write session; in every other outcome
the boot selector is never successfully repointed and a write session
that was opened is closed - by an abort, or by a finalize call; a
finalize can succeed in a non-updated outcome only when the subsequent
boot-selector repoint itself fails.  (The unamended claim - that in every
non-updated outcome an opened session "has been aborted, not finalized" -
fails on the path where the finalize call itself fails: there the code
zeroes the handle and never calls abort; see the counterexample.) -/
theorem c2_single_commit_amended (env : Env) (evs : List Ev) (fc : Bool) :
    (updateRun env evs fc).ops.countP isSetBootTrueOp ≤ 1 ∧
    (Op.setBoot true ∈ (updateRun env evs fc).ops →
      outcomeOf (updateRun env evs fc) = Outcome.updatedAndRebooting ∧
      Op.otaEnd true true ∈ (updateRun env evs fc).ops) ∧
    (outcomeOf (updateRun env evs fc) ≠ Outcome.updatedAndRebooting →
      Op.setBoot true ∉ (updateRun env evs fc).ops ∧
      (Op.otaBegin true ∈ (updateRun env evs fc).ops →
        Op.otaAbort true ∈ (updateRun env evs fc).ops ∨
        ∃ k, Op.otaEnd true k ∈ (updateRun env evs fc).ops)) ∧
    (Op.otaEnd true true ∈ (updateRun env evs fc).ops →
      outcomeOf (updateRun env evs fc) ≠ Outcome.updatedAndRebooting →
      Op.setBoot false ∈ (updateRun env evs fc).ops) := by
  have hclosed := session_closed_of_begun env evs fc
  have hinv := loopInv_loopRun env evs
  have hrst : (loopRun env evs).restarted = false := loopInv_restarted hinv
  have hends := hinv.2.2.2.2.1
  have hsb := hinv.2.2.2.2.2.1
  rw [updateRun] at hclosed ⊢
  revert hclosed
  refine finish_cases env (loopRun env evs) fc hrst (fun t =>
    (Op.otaBegin true ∈ t.ops →
      Op.otaAbort true ∈ t.ops ∨ ∃ k, Op.otaEnd true k ∈ t.ops) →
    t.ops.countP isSetBootTrueOp ≤ 1 ∧
    (Op.setBoot true ∈ t.ops →
      outcomeOf t = Outcome.updatedAndRebooting ∧ Op.otaEnd true true ∈ t.ops) ∧
    (outcomeOf t ≠ Outcome.updatedAndRebooting →
      Op.setBoot true ∉ t.ops ∧
      (Op.otaBegin true ∈ t.ops →
        Op.otaAbort true ∈ t.ops ∨ ∃ k, Op.otaEnd true k ∈ t.ops)) ∧
    (Op.otaEnd true true ∈ t.ops → outcomeOf t ≠ Outcome.updatedAndRebooting →
      Op.setBoot false ∈ t.ops)) ?_ ?_ ?_ ?_ ?_
  · intro _ _ hclosed
    refine ⟨by rw [countP_setBootTrue_zero hsb]; omega,
      fun hmem => absurd hmem (hsb true), fun _ => ⟨hsb true, hclosed⟩,
      fun hmem => absurd hmem (hends true true)⟩
  · intro _ _ hclosed
    have hnsb : ∀ b, Op.setBoot b ∉
        (loopRun env evs).ops ++ [Op.otaAbort (loopRun env evs).sessionLive] := by
      intro b hmem
      simp only [List.mem_append, List.mem_singleton] at hmem
      rcases hmem with hmem | hmem
      · exact hsb b hmem
      · cases hmem
    have hnend : ∀ a b, Op.otaEnd a b ∉
        (loopRun env evs).ops ++ [Op.otaAbort (loopRun env evs).sessionLive] := by
      intro a b hmem
      simp only [List.mem_append, List.mem_singleton] at hmem
      rcases hmem with hmem | hmem
      · exact hends a b hmem
      · cases hmem
    exact ⟨by rw [countP_setBootTrue_zero hnsb]; omega,
      fun hmem => absurd hmem (hnsb true), fun _ => ⟨hnsb true, hclosed⟩,
      fun hmem => absurd hmem (hnend true true)⟩
  · intro he _ _ hclosed
    have hout : outcomeOf { loopRun env evs with
        updateHandle := false
        sessionLive := false
        ops := (loopRun env evs).ops ++ [Op.otaEnd (loopRun env evs).sessionLive false]
        err := ErrCause.endFailed } = Outcome.failed :=
      outcomeOf_failed_of (by exact hrst) (by intro hq; cases hq) (by intro hq; cases hq)
    have hnsb : ∀ b, Op.setBoot b ∉
        (loopRun env evs).ops ++ [Op.otaEnd (loopRun env evs).sessionLive false] := by
      intro b hmem
      simp only [List.mem_append, List.mem_singleton] at hmem
      rcases hmem with hmem | hmem
      · exact hsb b hmem
      · cases hmem
    refine ⟨by rw [countP_setBootTrue_zero hnsb]; omega,
      fun hmem => absurd hmem (hnsb true), fun _ => ⟨hnsb true, hclosed⟩, ?_⟩
    intro hmem _
    simp only [List.mem_append, List.mem_singleton] at hmem
    rcases hmem with hmem | hmem
    · exact absurd hmem (hends true true)
    · exfalso
      have := congrArg (fun o => match o with
        | Op.otaEnd _ k => k
        | _ => true) hmem
      simp at this
  · intro he _ hsl _ _ hclosed
    refine ⟨?_, ?_, ?_, ?_⟩
    · rw [List.countP_append, countP_setBootTrue_zero hsb]
      simp [List.countP_cons, isSetBootTrueOp]
    · intro hmem
      exfalso
      simp only [List.mem_append] at hmem
      rcases hmem with hmem | hmem
      · exact hsb true hmem
      · simp at hmem
    · intro _
      constructor
      · intro hmem
        simp only [List.mem_append] at hmem
        rcases hmem with hmem | hmem
        · exact hsb true hmem
        · simp at hmem
      · exact hclosed
    · intro _ _
      simp
  · intro he _ hsl _ _ hclosed
    have hout : outcomeOf { loopRun env evs with
        updateHandle := false
        sessionLive := false
        ops := (loopRun env evs).ops ++ [Op.otaEnd true true, Op.setBoot true, Op.restart]
        restarted := true } = Outcome.updatedAndRebooting := by
      unfold outcomeOf
      rw [if_pos rfl]
    refine ⟨?_, fun _ => ⟨hout, by simp⟩, ?_, ?_⟩
    · rw [List.countP_append, countP_setBootTrue_zero hsb]
      simp [List.countP_cons, isSetBootTrueOp]
    · intro hne2
      exact absurd hout hne2
    · intro _ hne2
      exact absurd hout hne2


/-- Claim C4 (amended): in every execution a write session is opened at
most once (at most one `esp_ota_begin` call); `esp_ota_end` is called at
most once; an abort of a live session happens at most once; finalize and
an abort of a live session never both occur; abort calls number at most
two in total - and a second abort call occurs only on the path where
flushing the accumulated header to flash failed right after the session
was opened: there the session is aborted inside the header parser, the
stale nonzero handle is not cleared, and the clean-up code passes it to
`esp_ota_abort` a second time (recorded as an abort with no live
session).  The unamended claim - session closed exactly once, neither
close routine applied twice - fails on exactly that path; see the
counterexample. -/
theorem c4_session_discipline_amended (env : Env) (evs : List Ev) (fc : Bool) :
    (updateRun env evs fc).ops.countP isBeginOp ≤ 1 ∧
    (updateRun env evs fc).ops.countP isEndOp ≤ 1 ∧
    (updateRun env evs fc).ops.countP isAbortTrueOp ≤ 1 ∧
    ((∃ k, Op.otaEnd true k ∈ (updateRun env evs fc).ops) →
      Op.otaAbort true ∉ (updateRun env evs fc).ops) ∧
    (updateRun env evs fc).ops.countP isAbortOp ≤ 2 ∧
    (Op.otaAbort false ∈ (updateRun env evs fc).ops →
      (updateRun env evs fc).err = ErrCause.flushWriteFailed ∧
      Op.otaAbort true ∈ (updateRun env evs fc).ops) := by
  have hinv := loopInv_loopRun env evs
  have hrst : (loopRun env evs).restarted = false := loopInv_restarted hinv
  have hends := hinv.2.2.2.2.1
  have hbegins := hinv.2.2.2.2.2.2.2.2.1
  have haborts := hinv.2.2.2.2.2.2.2.2.2.1
  have habf := hinv.2.2.2.2.2.2.2.2.2.2.1
  have habtrue := hinv.2.2.2.2.2.2.2.2.2.2.2.1
  have hstale := hinv.2.2.2.2.2.2.2.2.2.2.2.2.1
  rw [updateRun]
  refine finish_cases env (loopRun env evs) fc hrst (fun t =>
    t.ops.countP isBeginOp ≤ 1 ∧
    t.ops.countP isEndOp ≤ 1 ∧
    t.ops.countP isAbortTrueOp ≤ 1 ∧
    ((∃ k, Op.otaEnd true k ∈ t.ops) → Op.otaAbort true ∉ t.ops) ∧
    t.ops.countP isAbortOp ≤ 2 ∧
    (Op.otaAbort false ∈ t.ops →
      t.err = ErrCause.flushWriteFailed ∧ Op.otaAbort true ∈ t.ops)) ?_ ?_ ?_ ?_ ?_
  · intro _ _
    refine ⟨hbegins, ?_, ?_, ?_, ?_, ?_⟩
    · rw [countP_end_zero hends]
      omega
    · exact le_trans (countP_abortTrue_le _) haborts
    · rintro ⟨k, hmem⟩
      exact absurd hmem (hends true k)
    · omega
    · intro hmem
      exact absurd hmem habf
  · intro hne hh
    refine ⟨?_, ?_, ?_, ?_, ?_, ?_⟩
    · rw [List.countP_append]
      have h2 : List.countP isBeginOp [Op.otaAbort (loopRun env evs).sessionLive] = 0 := rfl
      omega
    · rw [List.countP_append, countP_end_zero hends]
      have h2 : List.countP isEndOp [Op.otaAbort (loopRun env evs).sessionLive] = 0 := rfl
      omega
    · rw [List.countP_append]
      by_cases hsl : (loopRun env evs).sessionLive = true
      · have hnab : Op.otaAbort true ∉ (loopRun env evs).ops := by
          intro hmem
          rw [(habtrue hmem).2.1] at hsl
          cases hsl
        rw [countP_abortTrue_zero hnab, hsl]
        have h2 : List.countP isAbortTrueOp [Op.otaAbort true] = 1 := rfl
        omega
      · simp only [Bool.not_eq_true] at hsl
        rw [hsl]
        have h1 := le_trans (countP_abortTrue_le (loopRun env evs).ops) haborts
        have h2 : List.countP isAbortTrueOp [Op.otaAbort false] = 0 := rfl
        omega
    · rintro ⟨k, hmem⟩ hmem2
      rcases List.mem_append.mp hmem with hm | hm
      · exact absurd hm (hends true k)
      · exact Op.noConfusion (List.mem_singleton.mp hm)
    · rw [List.countP_append]
      have h2 : List.countP isAbortOp [Op.otaAbort (loopRun env evs).sessionLive] = 1 := rfl
      omega
    · intro hmem
      rcases List.mem_append.mp hmem with hm | hm
      · exact absurd hm habf
      · have h := List.mem_singleton.mp hm
        have h1 : false = (loopRun env evs).sessionLive := by injection h
        obtain ⟨herr2, hab2⟩ := hstale hh h1.symm
        exact ⟨herr2, List.mem_append.mpr (Or.inl hab2)⟩
  · intro he hfc hend
    have hnab : Op.otaAbort true ∉ (loopRun env evs).ops := fun hmem =>
      ErrCause.noConfusion ((habtrue hmem).1.symm.trans he)
    refine ⟨?_, ?_, ?_, ?_, ?_, ?_⟩
    · rw [List.countP_append]
      have h2 : List.countP isBeginOp [Op.otaEnd (loopRun env evs).sessionLive false] = 0 := rfl
      omega
    · rw [List.countP_append, countP_end_zero hends]
      have h2 : List.countP isEndOp [Op.otaEnd (loopRun env evs).sessionLive false] = 1 := rfl
      omega
    · rw [List.countP_append, countP_abortTrue_zero hnab]
      have h2 : List.countP isAbortTrueOp [Op.otaEnd (loopRun env evs).sessionLive false] = 0 := rfl
      omega
    · intro _ hmem
      rcases List.mem_append.mp hmem with hm | hm
      · exact hnab hm
      · exact Op.noConfusion (List.mem_singleton.mp hm)
    · rw [List.countP_append]
      have h2 : List.countP isAbortOp [Op.otaEnd (loopRun env evs).sessionLive false] = 0 := rfl
      omega
    · intro hmem
      rcases List.mem_append.mp hmem with hm | hm
      · exact absurd hm habf
      · exact Op.noConfusion (List.mem_singleton.mp hm)
  · intro he hfc hsl hend hsb
    have hnab : Op.otaAbort true ∉ (loopRun env evs).ops := fun hmem =>
      ErrCause.noConfusion ((habtrue hmem).1.symm.trans he)
    refine ⟨?_, ?_, ?_, ?_, ?_, ?_⟩
    · rw [List.countP_append]
      have h2 : List.countP isBeginOp [Op.otaEnd true true, Op.setBoot false] = 0 := rfl
      omega
    · rw [List.countP_append, countP_end_zero hends]
      have h2 : List.countP isEndOp [Op.otaEnd true true, Op.setBoot false] = 1 := rfl
      omega
    · rw [List.countP_append, countP_abortTrue_zero hnab]
      have h2 : List.countP isAbortTrueOp [Op.otaEnd true true, Op.setBoot false] = 0 := rfl
      omega
    · intro _ hmem
      rcases List.mem_append.mp hmem with hm | hm
      · exact hnab hm
      · simp at hm
    · rw [List.countP_append]
      have h2 : List.countP isAbortOp [Op.otaEnd true true, Op.setBoot false] = 0 := rfl
      omega
    · intro hmem
      rcases List.mem_append.mp hmem with hm | hm
      · exact absurd hm habf
      · simp at hm
  · intro he hfc hsl hend hsb
    have hnab : Op.otaAbort true ∉ (loopRun env evs).ops := fun hmem =>
      ErrCause.noConfusion ((habtrue hmem).1.symm.trans he)
    refine ⟨?_, ?_, ?_, ?_, ?_, ?_⟩
    · rw [List.countP_append]
      have h2 : List.countP isBeginOp [Op.otaEnd true true, Op.setBoot true, Op.restart] = 0 := rfl
      omega
    · rw [List.countP_append, countP_end_zero hends]
      have h2 : List.countP isEndOp [Op.otaEnd true true, Op.setBoot true, Op.restart] = 1 := rfl
      omega
    · rw [List.countP_append, countP_abortTrue_zero hnab]
      have h2 : List.countP isAbortTrueOp [Op.otaEnd true true, Op.setBoot true, Op.restart] = 0 := rfl
      omega
    · intro _ hmem
      rcases List.mem_append.mp hmem with hm | hm
      · exact hnab hm
      · simp at hm
    · rw [List.countP_append]
      have h2 : List.countP isAbortOp [Op.otaEnd true true, Op.setBoot true, Op.restart] = 0 := rfl
      omega
    · intro hmem
      rcases List.mem_append.mp hmem with hm | hm
      · exact absurd hm habf
      · simp at hm

theorem extractVersion_chunk7 : extractVersion chunk7 = List.replicate 32 7 := by
  rw [extractVersion, chunk7]
  rw [show sizeofEspImageHeader + sizeofEspImageSegmentHeader + appDescVersionOffset = 48 from rfl]
  rw [List.drop_replicate, List.take_replicate]
  simp [versionFieldSize]

theorem initSt_chunk7_len : initSt.headerBuf.length + chunk7.length = 1312 := by
  rw [chunk7, List.length_replicate]
  simp [initSt]

theorem chunkStep_chunk7_ok (env : Env)
    (hg : versionGate (List.replicate 32 7) env.runningVersion env.lastInvalidVersion =
      Verdict.proceed)
    (hb : env.flash.beginOk = true) (hw : env.flash.writeOk 0 = true) :
    chunkStep env initSt chunk7 =
      { err := ErrCause.ok
        imageHeaderWasChecked := true
        headerBuf := chunk7
        zeroReadCount := 0
        transferComplete := false
        sameVersionDetected := false
        binaryFileLength := 1312
        updateHandle := true
        sessionLive := true
        writeCalls := 1
        restarted := false
        ops := [Op.otaBegin true, Op.otaWrite 1312 true] } := by
  rw [chunkStep_proceed_ok env initSt chunk7 rfl
    (by rw [initSt_chunk7_len]; decide)
    (by rw [initSt_chunk7_len]; decide)
    (by show versionGate (extractVersion chunk7) env.runningVersion env.lastInvalidVersion =
          Verdict.proceed
        rw [extractVersion_chunk7]; exact hg)
    hb (by exact hw)]
  rw [initSt_chunk7_len]
  simp [initSt]

theorem loopRun_single (env : Env) (e : Ev) :
    loopRun env [e] = httpLoopStep env initSt e := by
  rw [loopRun]
  simp only [List.foldl_cons, List.foldl_nil]

theorem loopRun_two (env : Env) (e1 e2 : Ev) :
    loopRun env [e1, e2] = httpLoopStep env (httpLoopStep env initSt e1) e2 := by
  rw [loopRun]
  simp only [List.foldl_cons, List.foldl_nil]

theorem loopRun_commitTrace (env : Env)
    (hg : versionGate (List.replicate 32 7) env.runningVersion env.lastInvalidVersion =
      Verdict.proceed)
    (hb : env.flash.beginOk = true) (hw : env.flash.writeOk 0 = true) :
    loopRun env [Ev.chunk chunk7, Ev.zeroRead true false] =
      { err := ErrCause.ok
        imageHeaderWasChecked := true
        headerBuf := chunk7
        zeroReadCount := 1
        transferComplete := true
        sameVersionDetected := false
        binaryFileLength := 1312
        updateHandle := true
        sessionLive := true
        writeCalls := 1
        restarted := false
        ops := [Op.otaBegin true, Op.otaWrite 1312 true] } := by
  rw [loopRun_two]
  rw [httpLoopStep_live_chunk env initSt chunk7 rfl, chunkStep_chunk7_ok env hg hb hw]
  rw [httpLoopStep_live_zero env
    { err := ErrCause.ok
      imageHeaderWasChecked := true
      headerBuf := chunk7
      zeroReadCount := 0
      transferComplete := false
      sameVersionDetected := false
      binaryFileLength := 1312
      updateHandle := true
      sessionLive := true
      writeCalls := 1
      restarted := false
      ops := [Op.otaBegin true, Op.otaWrite 1312 true] } true false rfl]
  simp [zeroReadStep]

theorem loopRun_envS_skip :
    loopRun envS [Ev.chunk chunk7] =
      { initSt with headerBuf := chunk7, sameVersionDetected := true } := by
  rw [loopRun_single]
  rw [httpLoopStep_live_chunk envS initSt chunk7 rfl,
    chunkStep_skip envS initSt chunk7 rfl
      (by rw [initSt_chunk7_len]; decide)
      (by rw [initSt_chunk7_len]; decide)
      (by show versionGate (extractVersion chunk7) envS.runningVersion envS.lastInvalidVersion =
            Verdict.skip
          rw [extractVersion_chunk7]; decide)]
  simp [initSt]

theorem loopRun_envF_flush_fail :
    loopRun envF [Ev.chunk chunk7] =
      { err := ErrCause.flushWriteFailed
        imageHeaderWasChecked := false
        headerBuf := chunk7
        zeroReadCount := 0
        transferComplete := false
        sameVersionDetected := false
        binaryFileLength := 0
        updateHandle := true
        sessionLive := false
        writeCalls := 1
        restarted := false
        ops := [Op.otaBegin true, Op.otaWrite 1312 false, Op.otaAbort true] } := by
  rw [loopRun_single]
  rw [httpLoopStep_live_chunk envF initSt chunk7 rfl,
    chunkStep_flush_fail envF initSt chunk7 rfl
      (by rw [initSt_chunk7_len]; decide)
      (by rw [initSt_chunk7_len]; decide)
      (by show versionGate (extractVersion chunk7) envF.runningVersion envF.lastInvalidVersion =
            Verdict.proceed
          rw [extractVersion_chunk7]; decide)
      rfl rfl]
  rw [initSt_chunk7_len]
  simp [initSt]

theorem updateRun_envP_commit :
    updateRun envP [Ev.chunk chunk7, Ev.zeroRead true false] true =
      { err := ErrCause.ok
        imageHeaderWasChecked := true
        headerBuf := chunk7
        zeroReadCount := 1
        transferComplete := true
        sameVersionDetected := false
        binaryFileLength := 1312
        updateHandle := false
        sessionLive := false
        writeCalls := 1
        restarted := true
        ops := [Op.otaBegin true, Op.otaWrite 1312 true, Op.otaEnd true true,
          Op.setBoot true, Op.restart] } := by
  rw [updateRun, loopRun_commitTrace envP (by decide) rfl rfl]
  rfl

theorem updateRun_envE_end_fail :
    updateRun envE [Ev.chunk chunk7, Ev.zeroRead true false] true =
      { err := ErrCause.endFailed
        imageHeaderWasChecked := true
        headerBuf := chunk7
        zeroReadCount := 1
        transferComplete := true
        sameVersionDetected := false
        binaryFileLength := 1312
        updateHandle := false
        sessionLive := false
        writeCalls := 1
        restarted := false
        ops := [Op.otaBegin true, Op.otaWrite 1312 true, Op.otaEnd true false] } := by
  rw [updateRun, loopRun_commitTrace envE (by decide) rfl rfl]
  rfl

theorem updateRun_envS_end_fail :
    updateRun envS [Ev.chunk chunk7] true =
      { initSt with
        headerBuf := chunk7
        sameVersionDetected := true
        ops := [Op.otaEnd false false]
        err := ErrCause.endFailed } := by
  rw [updateRun, loopRun_envS_skip]
  rfl

theorem updateRun_envF_double_abort :
    updateRun envF [Ev.chunk chunk7] false =
      { err := ErrCause.flushWriteFailed
        imageHeaderWasChecked := false
        headerBuf := chunk7
        zeroReadCount := 0
        transferComplete := false
        sameVersionDetected := false
        binaryFileLength := 0
        updateHandle := true
        sessionLive := false
        writeCalls := 1
        restarted := false
        ops := [Op.otaBegin true, Op.otaWrite 1312 false, Op.otaAbort true,
          Op.otaAbort false] } := by
  rw [updateRun, loopRun_envF_flush_fail]
  rfl

/-- Claim C3 (code bug): a download whose candidate version field is
byte-for-byte equal to the running partition's (and matches no
last-invalid version) is detected as the same version, and no write
session is ever opened (the op trace at loop exit is empty); with the
transport not reporting completion the invocation indeed ends in
`no-update-needed` - but when the transport reports all data received,
the terminal branch still runs the finalize step on the null handle,
`esp_ota_end` fails, and the invocation ends in outcome `failed` instead
of the claimed `no-update-needed`. -/
theorem c3_same_version_commit_bug :
    extractVersion chunk7 = envS.runningVersion ∧
    (loopRun envS [Ev.chunk chunk7]).sameVersionDetected = true ∧
    (loopRun envS [Ev.chunk chunk7]).ops = [] ∧
    outcomeOf (updateRun envS [Ev.chunk chunk7] false) = Outcome.noUpdateNeeded ∧
    outcomeOf (updateRun envS [Ev.chunk chunk7] true) = Outcome.failed ∧
    (updateRun envS [Ev.chunk chunk7] true).err = ErrCause.endFailed ∧
    Op.otaEnd false false ∈ (updateRun envS [Ev.chunk chunk7] true).ops := by
  refine ⟨by rw [extractVersion_chunk7]; rfl, ?_, ?_, ?_, ?_, ?_, ?_⟩
  · rw [loopRun_envS_skip]
  · rw [loopRun_envS_skip]
    rfl
  · rw [updateRun, loopRun_envS_skip]
    rfl
  · rw [updateRun_envS_end_fail]
    rfl
  · rw [updateRun_envS_end_fail]
  · rw [updateRun_envS_end_fail]
    simp [initSt]

/-- Counterexample to claim C2 as stated: on the end-failure path the
outcome is `failed` and a write session was opened, yet the session was
finalized (`esp_ota_end` was called on the live session and the handle
cleared) and never aborted - "any write session that was opened has been
aborted, not finalized" fails.  The boot-selector half of the claim
survives; see the amended theorem. -/
theorem c2_counterexample :
    outcomeOf (updateRun envE [Ev.chunk chunk7, Ev.zeroRead true false] true) =
      Outcome.failed ∧
    Op.otaBegin true ∈ (updateRun envE [Ev.chunk chunk7, Ev.zeroRead true false] true).ops ∧
    Op.otaEnd true false ∈ (updateRun envE [Ev.chunk chunk7, Ev.zeroRead true false] true).ops ∧
    (∀ h, Op.otaAbort h ∉ (updateRun envE [Ev.chunk chunk7, Ev.zeroRead true false] true).ops) ∧
    Op.setBoot true ∉ (updateRun envE [Ev.chunk chunk7, Ev.zeroRead true false] true).ops := by
  rw [updateRun_envE_end_fail]
  refine ⟨rfl, by simp, by simp, ?_, by simp⟩
  intro h hmem
  simp at hmem

/-- Counterexample to claim C4 as stated: on the header-flush-failure path
the session is aborted inside the parser, the stale nonzero handle
survives, and the clean-up code aborts it a second time - the close
routine `esp_ota_abort` is applied twice in one invocation, refuting
"closed exactly once ... neither is ever applied twice". -/
theorem c4_counterexample :
    (updateRun envF [Ev.chunk chunk7] false).ops =
      [Op.otaBegin true, Op.otaWrite 1312 false, Op.otaAbort true, Op.otaAbort false] ∧
    (updateRun envF [Ev.chunk chunk7] false).ops.countP isAbortOp = 2 := by
  rw [updateRun_envF_double_abort]
  exact ⟨rfl, rfl⟩

theorem loopRun_nil (env : Env) : loopRun env [] = initSt := rfl

theorem c1_anti_bootloop_witness :
    envR.lastInvalidVersion = some (List.replicate 32 7) ∧
    looping (loopRun envR []) = true ∧
    (loopRun envR []).imageHeaderWasChecked = false ∧
    (loopRun envR []).headerBuf.length + chunk7.length ≤ otaFileHeaderBufferSize ∧
    hasCompleteHeader ((loopRun envR []).headerBuf.length + chunk7.length) = true ∧
    extractVersion ((loopRun envR []).headerBuf ++ chunk7) = List.replicate 32 7 ∧
    ((∀ running : List Nat,
        versionGate (List.replicate 32 7) running (some (List.replicate 32 7)) =
          Verdict.reject) ∧
      outcomeOf (updateRun envR ([] ++ Ev.chunk chunk7 :: []) false) =
        Outcome.rejectedKnownBad ∧
      (updateRun envR ([] ++ Ev.chunk chunk7 :: []) false).ops = []) := by
  have h0 : envR.lastInvalidVersion = some (List.replicate 32 7) := rfl
  have h1 : looping (loopRun envR []) = true := rfl
  have h2 : (loopRun envR []).imageHeaderWasChecked = false := rfl
  have h3 : (loopRun envR []).headerBuf.length + chunk7.length ≤ otaFileHeaderBufferSize := by
    rw [loopRun_nil, initSt_chunk7_len]
    decide
  have h4 : hasCompleteHeader ((loopRun envR []).headerBuf.length + chunk7.length) = true := by
    rw [loopRun_nil, initSt_chunk7_len]
    decide
  have h5 : extractVersion ((loopRun envR []).headerBuf ++ chunk7) = List.replicate 32 7 := by
    rw [loopRun_nil]
    show extractVersion ([] ++ chunk7) = List.replicate 32 7
    rw [List.nil_append, extractVersion_chunk7]
  exact ⟨h0, h1, h2, h3, h4, h5,
    c1_anti_bootloop envR (List.replicate 32 7) [] [] chunk7 false h0 h1 h2 h3 h4 h5⟩

theorem c5_byte_accounting_witness :
    ([chunk7] : List (List Nat)).all (fun c => !c.isEmpty) = true ∧
    (updateRun envP ([chunk7].map Ev.chunk ++ [Ev.zeroRead true false]) true).transferComplete =
      true ∧
    (updateRun envP ([chunk7].map Ev.chunk ++ [Ev.zeroRead true false]) true).binaryFileLength =
      ([chunk7].map List.length).sum := by
  have hne : ([chunk7] : List (List Nat)).all (fun c => !c.isEmpty) = true := rfl
  have hcommit :
      (updateRun envP ([chunk7].map Ev.chunk ++ [Ev.zeroRead true false]) true).transferComplete =
        true := by
    show (updateRun envP [Ev.chunk chunk7, Ev.zeroRead true false] true).transferComplete = true
    rw [updateRun_envP_commit]
  exact ⟨hne, hcommit, c5_byte_accounting envP [chunk7] true hne hcommit⟩

theorem c7_conn_reset_fatal_witness :
    looping (loopRun envP [Ev.chunk chunk7]) = true ∧
    (loopRun envP [Ev.chunk chunk7]).imageHeaderWasChecked = true ∧
    outcomeOf (updateRun envP ([Ev.chunk chunk7] ++ Ev.zeroRead true true :: []) true) =
      Outcome.failed := by
  have h1 : looping (loopRun envP [Ev.chunk chunk7]) = true := by
    rw [loopRun_single, httpLoopStep_live_chunk envP initSt chunk7 rfl,
      chunkStep_chunk7_ok envP (by decide) rfl rfl]
    rfl
  have h2 : (loopRun envP [Ev.chunk chunk7]).imageHeaderWasChecked = true := by
    rw [loopRun_single, httpLoopStep_live_chunk envP initSt chunk7 rfl,
      chunkStep_chunk7_ok envP (by decide) rfl rfl]
  exact ⟨h1, h2, c7_conn_reset_fatal envP [Ev.chunk chunk7] [] true true h1 h2⟩

theorem c8_overflow_guard_witness :
    looping (loopRun envP []) = true ∧
    (loopRun envP []).imageHeaderWasChecked = false ∧
    otaFileHeaderBufferSize <
      (loopRun envP []).headerBuf.length + (List.replicate 8193 0).length ∧
    outcomeOf (updateRun envP ([] ++ Ev.chunk (List.replicate 8193 0) :: []) false) =
      Outcome.failed ∧
    (updateRun envP ([] ++ Ev.chunk (List.replicate 8193 0) :: []) false).ops = [] := by
  have h1 : looping (loopRun envP []) = true := rfl
  have h2 : (loopRun envP []).imageHeaderWasChecked = false := rfl
  have h3 : otaFileHeaderBufferSize <
      (loopRun envP []).headerBuf.length + (List.replicate 8193 0).length := by
    rw [loopRun_nil, List.length_replicate]
    simp [initSt, otaFileHeaderBufferSize]
  have h := c8_overflow_guard envP [] [] (List.replicate 8193 0) false h1 h2 h3
  exact ⟨h1, h2, h3, h.1, h.2⟩

theorem c9_fatal_path_restarts_witness :
    (outcomeOf (updateRun envP [Ev.readError] false) = Outcome.failed ∨
      outcomeOf (updateRun envP [Ev.readError] false) = Outcome.rejectedKnownBad) ∧
    (appMainTerminal (updateRun envP [Ev.readError] false) =
        TerminalAction.restartAfterFailure ∧
      (updateRun envP [Ev.readError] false).sessionLive = false ∧
      (Op.otaBegin true ∈ (updateRun envP [Ev.readError] false).ops →
        Op.otaAbort true ∈ (updateRun envP [Ev.readError] false).ops ∨
        ∃ k, Op.otaEnd true k ∈ (updateRun envP [Ev.readError] false).ops)) := by
  have h : outcomeOf (updateRun envP [Ev.readError] false) = Outcome.failed ∨
      outcomeOf (updateRun envP [Ev.readError] false) = Outcome.rejectedKnownBad :=
    Or.inl rfl
  exact ⟨h, c9_fatal_path_restarts envP [Ev.readError] false h⟩

theorem c10_overflow_unreachable_witness :
    [Ev.chunk (List.replicate 1024 0)].all evBounded = true ∧
    ((updateRun envP [Ev.chunk (List.replicate 1024 0)] false).err ≠
        ErrCause.bufferOverflow ∧
      hasCompleteHeaderMinSize - 1 + otaBufferSize < otaFileHeaderBufferSize) := by
  have hall : [Ev.chunk (List.replicate 1024 0)].all evBounded = true := by
    simp only [List.all_cons, List.all_nil, evBounded, List.length_replicate, Bool.and_true]
    decide
  exact ⟨hall, c10_overflow_unreachable envP [Ev.chunk (List.replicate 1024 0)] false hall⟩

theorem c2_single_commit_amended_witness :
    (updateRun envE [Ev.chunk chunk7, Ev.zeroRead true false] true).ops.countP
        isSetBootTrueOp ≤ 1 ∧
    (Op.setBoot true ∈ (updateRun envE [Ev.chunk chunk7, Ev.zeroRead true false] true).ops →
      outcomeOf (updateRun envE [Ev.chunk chunk7, Ev.zeroRead true false] true) =
        Outcome.updatedAndRebooting ∧
      Op.otaEnd true true ∈
        (updateRun envE [Ev.chunk chunk7, Ev.zeroRead true false] true).ops) ∧
    (outcomeOf (updateRun envE [Ev.chunk chunk7, Ev.zeroRead true false] true) ≠
        Outcome.updatedAndRebooting →
      Op.setBoot true ∉ (updateRun envE [Ev.chunk chunk7, Ev.zeroRead true false] true).ops ∧
      (Op.otaBegin true ∈ (updateRun envE [Ev.chunk chunk7, Ev.zeroRead true false] true).ops →
        Op.otaAbort true ∈
          (updateRun envE [Ev.chunk chunk7, Ev.zeroRead true false] true).ops ∨
        ∃ k, Op.otaEnd true k ∈
          (updateRun envE [Ev.chunk chunk7, Ev.zeroRead true false] true).ops)) ∧
    (Op.otaEnd true true ∈ (updateRun envE [Ev.chunk chunk7, Ev.zeroRead true false] true).ops →
      outcomeOf (updateRun envE [Ev.chunk chunk7, Ev.zeroRead true false] true) ≠
        Outcome.updatedAndRebooting →
      Op.setBoot false ∈ (updateRun envE [Ev.chunk chunk7, Ev.zeroRead true false] true).ops) :=
  c2_single_commit_amended envE [Ev.chunk chunk7, Ev.zeroRead true false] true

theorem c4_session_discipline_amended_witness :
    (updateRun envF [Ev.chunk chunk7] false).ops.countP isBeginOp ≤ 1 ∧
    (updateRun envF [Ev.chunk chunk7] false).ops.countP isEndOp ≤ 1 ∧
    (updateRun envF [Ev.chunk chunk7] false).ops.countP isAbortTrueOp ≤ 1 ∧
    ((∃ k, Op.otaEnd true k ∈ (updateRun envF [Ev.chunk chunk7] false).ops) →
      Op.otaAbort true ∉ (updateRun envF [Ev.chunk chunk7] false).ops) ∧
    (updateRun envF [Ev.chunk chunk7] false).ops.countP isAbortOp ≤ 2 ∧
    (Op.otaAbort false ∈ (updateRun envF [Ev.chunk chunk7] false).ops →
      (updateRun envF [Ev.chunk chunk7] false).err = ErrCause.flushWriteFailed ∧
      Op.otaAbort true ∈ (updateRun envF [Ev.chunk chunk7] false).ops) :=
  c4_session_discipline_amended envF [Ev.chunk chunk7] false
